import Mathlib

/-!
Verification of the paldesigner save-decoding and normalization pipeline
(server crate, `src/save/`).  Rust functions are shallowly embedded as Lean
functions over `List UInt8` byte slices; machine integers become `Nat`
(source `u32` values are produced from four bytes, so they are `< 2^32`
by construction).  Functions from external crates (flate2 zlib, oozextract
oodle, the `gvas` property parser) are abstracted as explicit function
parameters of the embedded code, never invented.
-/

/-- A byte slice (`&[u8]` in the source). -/
abbrev Bytes := List UInt8

/-- Embedding of `read_u32_le` (src/save/detect.rs): little-endian u32 from
four bytes at `offset`.  The source indexes unconditionally but is only
called with at least four in-bounds bytes; the model totalizes with 0. -/
def readU32le (bytes : Bytes) (offset : Nat) : Nat :=
  (bytes.getD offset 0).toNat
    + 256 * (bytes.getD (offset + 1) 0).toNat
    + 65536 * (bytes.getD (offset + 2) 0).toNat
    + 16777216 * (bytes.getD (offset + 3) 0).toNat

/-- ASCII bytes of the magic tag `PlZ`. -/
def plzMagic : Bytes := [80, 108, 90]

/-- ASCII bytes of the magic tag `PlM`. -/
def plmMagic : Bytes := [80, 108, 77]

/-- ASCII bytes of the `CNK` framing tag. -/
def cnkMagic : Bytes := [67, 78, 75]

/-- Embedding of `SaveVariantInfo` (src/save/detect.rs).  The source stores
`magic` as the `String::from_utf8_lossy` rendering of three header bytes;
the model keeps the raw bytes (the source computes `compression` from the
raw bytes as well).  `cnkFramed` is the source field `has_cnk_prefix`. -/
structure SaveVariantInfo where
  cnkFramed : Bool
  magic : Option Bytes
  save_type : Option Nat
  compression : String
  uncompressed_size : Option Nat
  compressed_size : Option Nat
  payload_offset : Nat
  payload_len : Nat
deriving Repr, DecidableEq

/-- The inline `compression` computation of `detect_save_variant`
(src/save/detect.rs, lines 50-56), named so theorems can refer to it. -/
def classifyCompression (magic_bytes : Bytes) (save_type : Nat) : String :=
  if magic_bytes = plzMagic ∧ save_type = 0x32 then "zlib"
  else if magic_bytes = plmMagic ∧ save_type = 0x31 then "oodle"
  else "unknown"

/-- The inline `payload_len` computation of `detect_save_variant`
(src/save/detect.rs, lines 58-64): `requested == 0` takes all remaining,
else the minimum with the available payload. -/
def payloadLenOf (requested available : Nat) : Nat :=
  if requested = 0 then available else min requested available

lemma classify_zlib_iff (m : Bytes) (st : Nat) :
    classifyCompression m st = "zlib" ↔ m = plzMagic ∧ st = 0x32 := by
  unfold classifyCompression
  split_ifs with h1 h2
  · exact iff_of_true rfl h1
  · exact iff_of_false (by decide) h1
  · exact iff_of_false (by decide) h1

lemma classify_oodle_iff (m : Bytes) (st : Nat) :
    classifyCompression m st = "oodle" ↔ m = plmMagic ∧ st = 0x31 := by
  unfold classifyCompression
  split_ifs with h1 h2
  · refine iff_of_false (by decide) ?_
    rintro ⟨hm, hs⟩
    have h50 := h1.2
    omega
  · exact iff_of_true rfl h2
  · exact iff_of_false (by decide) h2

lemma classify_other (m : Bytes) (st : Nat)
    (hz : classifyCompression m st ≠ "zlib")
    (ho : classifyCompression m st ≠ "oodle") :
    classifyCompression m st = "unknown" := by
  unfold classifyCompression at *
  split_ifs at hz ho ⊢
  · exact absurd rfl hz
  · exact absurd rfl ho
  · rfl

/-- Embedding of `detect_save_variant` (src/save/detect.rs, lines 13-76). -/
def detect_save_variant (bytes : Bytes) : SaveVariantInfo :=
  if bytes.length < 12 then
    { cnkFramed := false, magic := none, save_type := none,
      compression := "unknown", uncompressed_size := none,
      compressed_size := none, payload_offset := 0, payload_len := 0 }
  else
    let cnk := cnkMagic.isPrefixOf bytes
    let header_offset := if cnk then 12 else 0
    let payload_offset := if cnk then 24 else 12
    if bytes.length < header_offset + 12 then
      { cnkFramed := cnk, magic := none, save_type := none,
        compression := "unknown", uncompressed_size := none,
        compressed_size := none, payload_offset := payload_offset,
        payload_len := 0 }
    else
      let uncompressed_size := readU32le bytes header_offset
      let compressed_size := readU32le bytes (header_offset + 4)
      let magic_bytes := (bytes.drop (header_offset + 8)).take 3
      let save_type := (bytes.getD (header_offset + 11) 0).toNat
      let available_payload := bytes.length - payload_offset
      let payload_len := payloadLenOf compressed_size available_payload
      { cnkFramed := cnk, magic := some magic_bytes,
        save_type := some save_type,
        compression := classifyCompression magic_bytes save_type,
        uncompressed_size := some uncompressed_size,
        compressed_size := some compressed_size,
        payload_offset := payload_offset, payload_len := payload_len }

/-- Branch characterization: slices shorter than 12 bytes. -/
lemma detect_short (bytes : Bytes) (h : bytes.length < 12) :
    detect_save_variant bytes =
      { cnkFramed := false, magic := none, save_type := none,
        compression := "unknown", uncompressed_size := none,
        compressed_size := none, payload_offset := 0, payload_len := 0 } := by
  simp [detect_save_variant, h]

/-- Branch characterization: CNK-prefixed slices of length 12 to 23. -/
lemma detect_cnk_short (bytes : Bytes) (hc : cnkMagic.isPrefixOf bytes = true)
    (h1 : 12 ≤ bytes.length) (h2 : bytes.length < 24) :
    detect_save_variant bytes =
      { cnkFramed := true, magic := none, save_type := none,
        compression := "unknown", uncompressed_size := none,
        compressed_size := none, payload_offset := 24, payload_len := 0 } := by
  have hA : ¬ bytes.length < 12 := by omega
  have hB : bytes.length < 12 + 12 := by omega
  simp [detect_save_variant, hA, hc, hB]

/-- Branch characterization: CNK-prefixed slices with a full wrapper header. -/
lemma detect_cnk_long (bytes : Bytes) (hc : cnkMagic.isPrefixOf bytes = true)
    (h2 : 24 ≤ bytes.length) :
    detect_save_variant bytes =
      { cnkFramed := true, magic := some ((bytes.drop 20).take 3),
        save_type := some (bytes.getD 23 0).toNat,
        compression :=
          classifyCompression ((bytes.drop 20).take 3) (bytes.getD 23 0).toNat,
        uncompressed_size := some (readU32le bytes 12),
        compressed_size := some (readU32le bytes 16),
        payload_offset := 24,
        payload_len := payloadLenOf (readU32le bytes 16) (bytes.length - 24) } := by
  have hA : ¬ bytes.length < 12 := by omega
  have hB : ¬ bytes.length < 12 + 12 := by omega
  simp [detect_save_variant, hA, hc, hB]

/-- Branch characterization: non-CNK slices of length at least 12. -/
lemma detect_plain_long (bytes : Bytes) (hc : cnkMagic.isPrefixOf bytes = false)
    (h1 : 12 ≤ bytes.length) :
    detect_save_variant bytes =
      { cnkFramed := false, magic := some ((bytes.drop 8).take 3),
        save_type := some (bytes.getD 11 0).toNat,
        compression :=
          classifyCompression ((bytes.drop 8).take 3) (bytes.getD 11 0).toNat,
        uncompressed_size := some (readU32le bytes 0),
        compressed_size := some (readU32le bytes 4),
        payload_offset := 12,
        payload_len := payloadLenOf (readU32le bytes 4) (bytes.length - 12) } := by
  have hA : ¬ bytes.length < 12 := by omega
  have hB : ¬ bytes.length < 0 + 12 := by omega
  simp [detect_save_variant, hA, hc, hB]

lemma payloadLenOf_le (requested available : Nat) :
    payloadLenOf requested available ≤ available := by
  unfold payloadLenOf
  split_ifs
  · exact Nat.le_refl _
  · exact Nat.min_le_right _ _

/-- A CNK-framed slice of length 12: long enough for the outer check but
shorter than the 24 bytes a CNK wrapper header needs. -/
def cnkShortSlice : Bytes := cnkMagic ++ List.replicate 9 0

/-- C1 counterexample: on a CNK-prefixed slice of length 12 the detector
reports `payload_offset = 24` with `payload_len = 0`, so
`payload_offset + payload_len` exceeds the slice length, contradicting the
claimed invariant exactly on the slices the claim singles out. -/
theorem C1_counterexample :
    cnkShortSlice.length <
      (detect_save_variant cnkShortSlice).payload_offset
        + (detect_save_variant cnkShortSlice).payload_len := by
  decide

/-- C1 (amended): for every byte slice that is not a CNK-prefixed slice
shorter than 24 bytes, the descriptor satisfies
`payload_offset + payload_len ≤ length`.  On CNK-prefixed slices of length
at least 12 but below 24 the detector instead returns `payload_offset = 24`
and `payload_len = 0`, whose sum exceeds the slice length. -/
theorem C1_amended_bound (bytes : Bytes)
    (h : (detect_save_variant bytes).cnkFramed = true → 24 ≤ bytes.length) :
    (detect_save_variant bytes).payload_offset
      + (detect_save_variant bytes).payload_len ≤ bytes.length := by
  by_cases hlen : bytes.length < 12
  · rw [detect_short bytes hlen]
    simp
  · cases hcnk : cnkMagic.isPrefixOf bytes with
    | true =>
      by_cases h24 : 24 ≤ bytes.length
      · rw [detect_cnk_long bytes hcnk h24]
        have := payloadLenOf_le (readU32le bytes 16) (bytes.length - 24)
        dsimp only
        omega
      · have := h (by rw [detect_cnk_short bytes hcnk (by omega) (by omega)])
        omega
    | false =>
      rw [detect_plain_long bytes hcnk (by omega)]
      have := payloadLenOf_le (readU32le bytes 4) (bytes.length - 12)
      dsimp only
      omega

/-- C1 witness: the amended bound applied to a concrete non-CNK slice. -/
theorem C1_amended_bound_witness :
    (detect_save_variant (List.replicate 16 0)).payload_offset
      + (detect_save_variant (List.replicate 16 0)).payload_len ≤
      (List.replicate 16 (0 : UInt8)).length :=
  C1_amended_bound (List.replicate 16 0) (by decide)


/-- C6: full characterization of the variant detector: compression is
`"zlib"` exactly for `(PlZ, 0x32)` headers and `"oodle"` exactly for
`(PlM, 0x31)`, otherwise `"unknown"`; `payload_offset` is 24 when
CNK-framed and 12 otherwise (for slices long enough to carry a header,
which is how the claim's short-slice clause reads: below 12 bytes the
detector zeroes both payload fields); `payload_len` is
`min(compressed_size, len − payload_offset)`, or all remaining bytes when
`compressed_size = 0`; slices shorter than 12 bytes get `"unknown"` with
zeroed payload bounds. The embedded function is total, so it never
panics. -/
theorem C6_detector_full (bytes : Bytes) :
    ((detect_save_variant bytes).compression = "zlib" ↔
       (detect_save_variant bytes).magic = some plzMagic ∧
       (detect_save_variant bytes).save_type = some 0x32) ∧
    ((detect_save_variant bytes).compression = "oodle" ↔
       (detect_save_variant bytes).magic = some plmMagic ∧
       (detect_save_variant bytes).save_type = some 0x31) ∧
    ((detect_save_variant bytes).compression ≠ "zlib" →
       (detect_save_variant bytes).compression ≠ "oodle" →
       (detect_save_variant bytes).compression = "unknown") ∧
    (bytes.length < 12 →
       (detect_save_variant bytes).compression = "unknown" ∧
       (detect_save_variant bytes).payload_offset = 0 ∧
       (detect_save_variant bytes).payload_len = 0) ∧
    (12 ≤ bytes.length →
       (detect_save_variant bytes).payload_offset =
         if (detect_save_variant bytes).cnkFramed then 24 else 12) ∧
    (∀ cs, (detect_save_variant bytes).compressed_size = some cs →
       (detect_save_variant bytes).payload_len =
         if cs = 0 then
           bytes.length - (detect_save_variant bytes).payload_offset
         else min cs (bytes.length - (detect_save_variant bytes).payload_offset)) := by
  by_cases hlen : bytes.length < 12
  · rw [detect_short bytes hlen]
    refine ⟨by simp, by simp, fun _ _ => rfl, fun _ => ⟨rfl, rfl, rfl⟩,
      fun h12 => absurd h12 (by omega), fun cs hcs => by cases hcs⟩
  · cases hcnk : cnkMagic.isPrefixOf bytes with
    | true =>
      by_cases h24 : 24 ≤ bytes.length
      · rw [detect_cnk_long bytes hcnk h24]
        dsimp only
        refine ⟨?_, ?_, classify_other _ _, fun h12 => absurd h12 hlen,
          fun _ => rfl, ?_⟩
        · rw [classify_zlib_iff]
          simp
        · rw [classify_oodle_iff]
          simp
        · intro cs hcs
          injection hcs with hcs
          subst hcs
          rfl
      · rw [detect_cnk_short bytes hcnk (by omega) (by omega)]
        refine ⟨by simp, by simp, fun _ _ => rfl, fun h12 => absurd h12 hlen,
          fun _ => rfl, fun cs hcs => by cases hcs⟩
    | false =>
      rw [detect_plain_long bytes hcnk (by omega)]
      dsimp only
      refine ⟨?_, ?_, classify_other _ _, fun h12 => absurd h12 hlen,
        fun _ => rfl, ?_⟩
      · rw [classify_zlib_iff]
        simp
      · rw [classify_oodle_iff]
        simp
      · intro cs hcs
        injection hcs with hcs
        subst hcs
        rfl

/-- C6 witness: the characterization applied to a minimal PlZ/0x32 header,
yielding the `"zlib"` classification concretely. -/
theorem C6_detector_full_witness :
    (detect_save_variant ([0, 0, 0, 0, 0, 0, 0, 0] ++ plzMagic ++ [0x32])).compression
      = "zlib" :=
  ((C6_detector_full ([0, 0, 0, 0, 0, 0, 0, 0] ++ plzMagic ++ [0x32])).1).mpr
    (by constructor <;> decide)

/-- Char comparison is comparison of code points. -/
lemma char_le_toNat {a b : Char} : a ≤ b ↔ a.toNat ≤ b.toNat := Iff.rfl

lemma char_eq_of_toNat_eq {a b : Char} (h : a.toNat = b.toNat) : a = b :=
  Char.ext (UInt32.toNat.inj h)

lemma char_toNat_ofNat (n : Nat) (h : n < 55296) : (Char.ofNat n).toNat = n := by
  have hv : n.isValidChar := Or.inl h
  rw [Char.ofNat, dif_pos hv]
  simp [Char.ofNatAux, Char.toNat, UInt32.toNat]

lemma toUpper_toNat (c : Char) :
    (Char.toUpper c).toNat =
      if 97 ≤ c.toNat ∧ c.toNat ≤ 122 then c.toNat - 32 else c.toNat := by
  have hdef : Char.toUpper c =
      if 97 ≤ c.toNat ∧ c.toNat ≤ 122 then Char.ofNat (c.toNat - 32) else c :=
    rfl
  rw [hdef]
  split_ifs with h
  · exact char_toNat_ofNat (c.toNat - 32) (by omega)
  · rfl

lemma toUpper_toUpper (c : Char) :
    Char.toUpper (Char.toUpper c) = Char.toUpper c := by
  apply char_eq_of_toNat_eq
  by_cases h : 97 ≤ c.toNat ∧ c.toNat ≤ 122
  · have h1 : (Char.toUpper c).toNat = c.toNat - 32 := by
      rw [toUpper_toNat, if_pos h]
    rw [toUpper_toNat, if_neg (by omega)]
  · have h1 : (Char.toUpper c).toNat = c.toNat := by
      rw [toUpper_toNat, if_neg h]
    rw [toUpper_toNat, h1, if_neg h]

lemma toUpper_ne_dash (c : Char) (hc : (c != '-') = true) :
    (Char.toUpper c != '-') = true := by
  rw [bne_iff_ne] at *
  intro heq
  apply hc
  have h45 := congrArg Char.toNat heq
  have hd : ('-').toNat = 45 := rfl
  rw [toUpper_toNat, hd] at h45
  apply char_eq_of_toNat_eq
  rw [hd]
  by_cases h : 97 ≤ c.toNat ∧ c.toNat ≤ 122
  · rw [if_pos h] at h45
    omega
  · rw [if_neg h] at h45
    exact h45

/-- Embedding of `normalize_guid` (src/save/rawdata/mod.rs, lines 13-19,
and its identical copy in src/save/normalize.rs, lines 815-821).  Rust
`String` is modelled as `List Char`; `value.replace('-', "")` removes
every hyphen, and `to_uppercase` is modelled character-wise via
`Char.toUpper` (all guid renderings the program produces are ASCII). -/
def normalize_guid (value : List Char) : List Char :=
  if value = ['0'] then List.replicate 32 '0'
  else (value.filter (fun c => c != '-')).map Char.toUpper

/-- `normalize_guid` lifted to Lean `String`. -/
def normalizeGuidS (s : String) : String :=
  String.mk (normalize_guid s.data)

/-- The hyphen-dropping uppercasing half of `normalize_guid` (its `else`
branch), named for use in theorem statements. -/
def stripUpper (v : List Char) : List Char :=
  (v.filter (fun c => c != '-')).map Char.toUpper

lemma normalize_guid_of_ne (v : List Char) (h : v ≠ ['0']) :
    normalize_guid v = stripUpper v := by
  unfold normalize_guid stripUpper
  rw [if_neg h]

lemma stripUpper_cons (c : Char) (cs : List Char) :
    stripUpper (c :: cs) =
      if (c != '-') = true then Char.toUpper c :: stripUpper cs
      else stripUpper cs := by
  unfold stripUpper
  rw [List.filter_cons]
  split_ifs with h
  · rw [List.map_cons]
  · rfl

lemma stripUpper_idem (v : List Char) :
    stripUpper (stripUpper v) = stripUpper v := by
  induction v with
  | nil => rfl
  | cons c cs ih =>
    rw [stripUpper_cons]
    split_ifs with hc
    · rw [stripUpper_cons, if_pos (toUpper_ne_dash c hc), toUpper_toUpper, ih]
    · exact ih

/-- Uppercase hexadecimal digit (the claim's `[0-9A-F]` character class). -/
def isUpperHexChar (c : Char) : Bool :=
  decide (('0' ≤ c ∧ c ≤ '9') ∨ ('A' ≤ c ∧ c ≤ 'F'))

/-- A character permitted in a textual guid: hex digit or hyphen. -/
def isGuidInputChar (c : Char) : Bool :=
  decide (('0' ≤ c ∧ c ≤ '9') ∨ ('a' ≤ c ∧ c ≤ 'f') ∨ ('A' ≤ c ∧ c ≤ 'F')
    ∨ c = '-')

/-- A valid textual guid: hex digits and hyphens with exactly 32 hex
digits, the claim's domain for the output-pattern clause. -/
def isValidGuidInput (v : List Char) : Bool :=
  v.all isGuidInputChar && ((v.filter (fun c => c != '-')).length == 32)

lemma toUpper_hex (c : Char) (h : isGuidInputChar c = true)
    (hd : (c != '-') = true) : isUpperHexChar (Char.toUpper c) = true := by
  simp only [isGuidInputChar, decide_eq_true_eq] at h
  simp only [isUpperHexChar, decide_eq_true_eq]
  have ht := toUpper_toNat c
  have h0 : ('0').toNat = 48 := rfl
  have h9 : ('9').toNat = 57 := rfl
  have hA : ('A').toNat = 65 := rfl
  have hF : ('F').toNat = 70 := rfl
  rcases h with h | h | h | h
  · have h1 : 48 ≤ c.toNat := char_le_toNat.mp h.1
    have h2 : c.toNat ≤ 57 := char_le_toNat.mp h.2
    rw [if_neg (by omega)] at ht
    exact Or.inl ⟨char_le_toNat.mpr (by omega), char_le_toNat.mpr (by omega)⟩
  · have h1 : 97 ≤ c.toNat := char_le_toNat.mp h.1
    have h2 : c.toNat ≤ 102 := char_le_toNat.mp h.2
    rw [if_pos (by omega)] at ht
    exact Or.inr ⟨char_le_toNat.mpr (by omega), char_le_toNat.mpr (by omega)⟩
  · have h1 : 65 ≤ c.toNat := char_le_toNat.mp h.1
    have h2 : c.toNat ≤ 70 := char_le_toNat.mp h.2
    rw [if_neg (by omega)] at ht
    exact Or.inr ⟨char_le_toNat.mpr (by omega), char_le_toNat.mpr (by omega)⟩
  · subst h
    exact absurd hd (by decide)

/-- C9 counterexample: `normalize_guid` is not idempotent on every string.
The input `"-0"` normalizes to `"0"`, and a second application expands that
to 32 zeros. -/
theorem C9_counterexample :
    normalize_guid (normalize_guid ['-', '0']) ≠ normalize_guid ['-', '0'] := by
  decide

/-- C9 (amended): `normalize_guid` is idempotent on `"0"` itself and on
every input whose hyphen-stripped uppercased form is not the single
character `"0"` (inputs such as `"-0"` collapse to `"0"`, which a second
application expands to 32 zeros); on every valid textual guid the output
is 32 uppercase hex characters; and `"0"` maps to 32 zeros. -/
theorem C9_amended_normalize_guid :
    (∀ v : List Char, v = ['0'] ∨ stripUpper v ≠ ['0'] →
        normalize_guid (normalize_guid v) = normalize_guid v) ∧
    (∀ v : List Char, isValidGuidInput v = true →
        (normalize_guid v).length = 32 ∧
        (normalize_guid v).all isUpperHexChar = true) ∧
    normalize_guid ['0'] = List.replicate 32 '0' := by
  refine ⟨?_, ?_, by decide⟩
  · rintro v (rfl | hv)
    · decide
    · have hne : v ≠ ['0'] := by
        intro h
        subst h
        exact hv (by decide)
      rw [normalize_guid_of_ne v hne, normalize_guid_of_ne _ hv]
      exact stripUpper_idem v
  · intro v hvalid
    unfold isValidGuidInput at hvalid
    rw [Bool.and_eq_true, List.all_eq_true, beq_iff_eq] at hvalid
    obtain ⟨hall, hlen⟩ := hvalid
    have hne : v ≠ ['0'] := by
      intro h
      subst h
      exact absurd hlen (by decide)
    rw [normalize_guid_of_ne v hne]
    constructor
    · unfold stripUpper
      rw [List.length_map]
      exact hlen
    · unfold stripUpper
      rw [List.all_eq_true]
      intro c hc
      rw [List.mem_map] at hc
      obtain ⟨c', hc', rfl⟩ := hc
      rw [List.mem_filter] at hc'
      exact toUpper_hex c' (hall c' hc'.1) hc'.2

/-- C9 witness: the amended idempotence at `"-a"` and the output pattern on
a concrete 32-hex-digit input. -/
theorem C9_amended_normalize_guid_witness :
    normalize_guid (normalize_guid ['-', 'a']) = normalize_guid ['-', 'a'] ∧
    (normalize_guid (List.replicate 32 'a')).length = 32 :=
  ⟨C9_amended_normalize_guid.1 ['-', 'a'] (Or.inr (by decide)),
   (C9_amended_normalize_guid.2.1 (List.replicate 32 'a') (by decide)).1⟩

/-- Embedding of `payload_slice` (src/save/parse.rs, lines 105-113).
`saturating_add` cannot overflow in `Nat`, and `&bytes[start..end]` becomes
drop-then-take. -/
def payload_slice (bytes : Bytes) (variant : SaveVariantInfo) :
    Except String Bytes :=
  let payload_start := variant.payload_offset
  let payload_end := payload_start + variant.payload_len
  if payload_end > bytes.length ∨ payload_start ≥ payload_end then
    .error "payload boundaries are invalid"
  else
    .ok ((bytes.drop payload_start).take (payload_end - payload_start))

/-- Embedding of `decode_plz` (src/save/parse.rs, lines 60-81).  The
external flate2 `zlib_decompress` is the parameter `zlibD`.  The source
truncates the decoded length with `as u32` before the mismatch check,
hence the `% 2^32`. -/
def decode_plz (zlibD : Bytes → Except String Bytes) (payload : Bytes)
    (variant : SaveVariantInfo) : Except String Bytes :=
  match zlibD payload with
  | .error e => .error ("zlib decode failed: " ++ e)
  | .ok first_pass =>
    match (if variant.save_type = some 0x32 then
        match zlibD first_pass with
        | .error e =>
          (.error ("zlib second-pass decode failed: " ++ e) :
            Except String Bytes)
        | .ok v => .ok v
      else .ok first_pass) with
    | .error e => .error e
    | .ok decoded =>
      match variant.uncompressed_size with
      | some expected_size =>
        if decoded.length % 4294967296 ≠ expected_size then
          .error ("decoded size mismatch: expected " ++ toString expected_size
            ++ " bytes, got " ++ toString (decoded.length % 4294967296)
            ++ " bytes")
        else .ok decoded
      | none => .ok decoded

/-- Embedding of `decode_plm` (src/save/parse.rs, lines 83-103).  The
oozextract extractor is abstracted: `oodleRun payload size` is the byte
count `read_from_slice` reports (or its error) and `oodleData payload size`
is the content of the `vec![0; size]` output buffer after the call. -/
def decode_plm (oodleRun : Bytes → Nat → Except String Nat)
    (oodleData : Bytes → Nat → Bytes) (payload : Bytes)
    (variant : SaveVariantInfo) : Except String Bytes :=
  match variant.uncompressed_size with
  | none => .error "oodle decode requires uncompressed_size from save header"
  | some expected_size =>
    match oodleRun payload expected_size with
    | .error e => .error ("oodle decode failed: " ++ e)
    | .ok bytes_written =>
      if bytes_written ≠ expected_size then
        .error ("oodle decoded byte count mismatch: expected "
          ++ toString expected_size ++ " bytes, got "
          ++ toString bytes_written ++ " bytes")
      else .ok (oodleData payload expected_size)

/-- Embedding of `decode_to_gvas` (src/save/parse.rs, lines 50-58). -/
def decode_to_gvas (zlibD : Bytes → Except String Bytes)
    (oodleRun : Bytes → Nat → Except String Nat)
    (oodleData : Bytes → Nat → Bytes) (bytes : Bytes)
    (variant : SaveVariantInfo) : Except String Bytes :=
  match payload_slice bytes variant with
  | .error e => .error e
  | .ok payload =>
    if variant.compression = "zlib" then decode_plz zlibD payload variant
    else if variant.compression = "oodle" then
      decode_plm oodleRun oodleData payload variant
    else .error "decode_not_attempted"

/-- One uppercase hex digit (the `{:02X}` formatting of `hex_magic`). -/
def hexDigitU (n : Nat) : Char :=
  if n < 10 then Char.ofNat (48 + n) else Char.ofNat (55 + n)

/-- Embedding of `hex_magic` (src/save/parse.rs, lines 122-124). -/
def hex_magic (bytes : Bytes) : String :=
  String.mk (bytes.foldr
    (fun b acc => hexDigitU (b.toNat / 16) :: hexDigitU (b.toNat % 16) :: acc)
    [])

/-- Embedding of `GvasInspectResult` (src/save/parse.rs, lines 6-12). -/
structure GvasInspectResult where
  decode_status : String
  decode_error : Option String
  decompressed_size : Option Nat
  gvas_magic : Option String
deriving Repr, DecidableEq

/-- ASCII bytes of `GVAS`. -/
def gvasMagicBytes : Bytes := [71, 86, 65, 83]

/-- Embedding of `inspect_gvas` (src/save/parse.rs, lines 14-48). -/
def inspect_gvas (zlibD : Bytes → Except String Bytes)
    (oodleRun : Bytes → Nat → Except String Nat)
    (oodleData : Bytes → Nat → Bytes) (bytes : Bytes)
    (variant : SaveVariantInfo) : GvasInspectResult :=
  match decode_to_gvas zlibD oodleRun oodleData bytes variant with
  | .ok decompressed =>
    let gvas_magic :=
      if 4 ≤ decompressed.length then
        if decompressed.take 4 = gvasMagicBytes then some "GVAS"
        else some (hex_magic (decompressed.take 4))
      else none
    { decode_status := "ok", decode_error := none,
      decompressed_size := some decompressed.length, gvas_magic := gvas_magic }
  | .error e =>
    if e = "decode_not_attempted" then
      { decode_status := "not_attempted", decode_error := none,
        decompressed_size := none, gvas_magic := none }
    else
      { decode_status := "error", decode_error := some e,
        decompressed_size := none, gvas_magic := none }

lemma inspect_status_ok (zlibD : Bytes → Except String Bytes)
    (oodleRun : Bytes → Nat → Except String Nat)
    (oodleData : Bytes → Nat → Bytes) (bytes : Bytes)
    (variant : SaveVariantInfo) (d : Bytes)
    (hd : decode_to_gvas zlibD oodleRun oodleData bytes variant = .ok d) :
    (inspect_gvas zlibD oodleRun oodleData bytes variant).decode_status
      = "ok" := by
  unfold inspect_gvas
  rw [hd]

lemma inspect_status_err (zlibD : Bytes → Except String Bytes)
    (oodleRun : Bytes → Nat → Except String Nat)
    (oodleData : Bytes → Nat → Bytes) (bytes : Bytes)
    (variant : SaveVariantInfo) (e : String)
    (hd : decode_to_gvas zlibD oodleRun oodleData bytes variant = .error e) :
    (inspect_gvas zlibD oodleRun oodleData bytes variant).decode_status
      = (if e = "decode_not_attempted" then "not_attempted" else "error") := by
  unfold inspect_gvas
  rw [hd]
  dsimp only
  split_ifs <;> rfl

/-- C7: behavior of the wrapper decoder on a sliced payload (the claim's
three "paths" are the arms of the compression dispatch, entered once
`payload_slice` has produced the payload).  Zlib: a second zlib decode is
applied exactly when `save_type = 0x32`, and any known `uncompressed_size`
equals the final decoded length (truncated `as u32` by the source) on
success — i.e. a mismatch fails.  Oodle: absent `uncompressed_size` fails
with the dedicated error, and a decompressor byte count differing from
`uncompressed_size` fails with an error distinct from the sentinel.
Unknown compression yields exactly the sentinel `decode_not_attempted`,
which the inspector maps to `decode_status = "not_attempted"`, while every
other decode error maps to `"error"`. -/
theorem C7_wrapper_decoder (zlibD : Bytes → Except String Bytes)
    (oodleRun : Bytes → Nat → Except String Nat)
    (oodleData : Bytes → Nat → Bytes) (bytes : Bytes)
    (variant : SaveVariantInfo) (payload : Bytes)
    (hp : payload_slice bytes variant = .ok payload) :
    (variant.compression = "zlib" → variant.save_type = some 0x32 →
       ∀ d, decode_to_gvas zlibD oodleRun oodleData bytes variant = .ok d →
         ∃ fp, zlibD payload = .ok fp ∧ zlibD fp = .ok d) ∧
    (variant.compression = "zlib" → variant.save_type ≠ some 0x32 →
       ∀ d, decode_to_gvas zlibD oodleRun oodleData bytes variant = .ok d →
         zlibD payload = .ok d) ∧
    (variant.compression = "zlib" →
       ∀ u, variant.uncompressed_size = some u →
       ∀ d, decode_to_gvas zlibD oodleRun oodleData bytes variant = .ok d →
         d.length % 4294967296 = u) ∧
    (variant.compression = "oodle" → variant.uncompressed_size = none →
       decode_to_gvas zlibD oodleRun oodleData bytes variant =
         .error "oodle decode requires uncompressed_size from save header") ∧
    (variant.compression = "oodle" →
       ∀ u, variant.uncompressed_size = some u →
       ∀ n, oodleRun payload u = .ok n → n ≠ u →
         ∃ e, decode_to_gvas zlibD oodleRun oodleData bytes variant = .error e
           ∧ e ≠ "decode_not_attempted") ∧
    (variant.compression ≠ "zlib" → variant.compression ≠ "oodle" →
       decode_to_gvas zlibD oodleRun oodleData bytes variant =
         .error "decode_not_attempted") ∧
    ((inspect_gvas zlibD oodleRun oodleData bytes variant).decode_status
        = "not_attempted" ↔
      decode_to_gvas zlibD oodleRun oodleData bytes variant =
        .error "decode_not_attempted") ∧
    (∀ e, decode_to_gvas zlibD oodleRun oodleData bytes variant = .error e →
       e ≠ "decode_not_attempted" →
       (inspect_gvas zlibD oodleRun oodleData bytes variant).decode_status
         = "error") := by
  have hdec : decode_to_gvas zlibD oodleRun oodleData bytes variant =
      (if variant.compression = "zlib" then decode_plz zlibD payload variant
       else if variant.compression = "oodle" then
         decode_plm oodleRun oodleData payload variant
       else .error "decode_not_attempted") := by
    unfold decode_to_gvas
    rw [hp]
  refine ⟨?_, ?_, ?_, ?_, ?_, ?_, ?_, ?_⟩
  · intro hc hst d hd
    rw [hdec, if_pos hc] at hd
    unfold decode_plz at hd
    cases hfp : zlibD payload with
    | error e =>
      rw [hfp] at hd
      cases hd
    | ok fp =>
      rw [hfp] at hd
      dsimp only at hd
      rw [if_pos hst] at hd
      refine ⟨fp, rfl, ?_⟩
      cases hsp : zlibD fp with
      | error e =>
        rw [hsp] at hd
        cases hd
      | ok v =>
        rw [hsp] at hd
        dsimp only at hd
        cases hu : variant.uncompressed_size with
        | none =>
          rw [hu] at hd
          dsimp only at hd
          cases hd
          rfl
        | some u =>
          rw [hu] at hd
          dsimp only at hd
          by_cases hm : v.length % 4294967296 ≠ u
          · rw [if_pos hm] at hd
            cases hd
          · rw [if_neg hm] at hd
            cases hd
            rfl
  · intro hc hst d hd
    rw [hdec, if_pos hc] at hd
    unfold decode_plz at hd
    cases hfp : zlibD payload with
    | error e =>
      rw [hfp] at hd
      cases hd
    | ok fp =>
      rw [hfp] at hd
      dsimp only at hd
      rw [if_neg hst] at hd
      dsimp only at hd
      cases hu : variant.uncompressed_size with
      | none =>
        rw [hu] at hd
        dsimp only at hd
        cases hd
        rfl
      | some u =>
        rw [hu] at hd
        dsimp only at hd
        by_cases hm : fp.length % 4294967296 ≠ u
        · rw [if_pos hm] at hd
          cases hd
        · rw [if_neg hm] at hd
          cases hd
          rfl
  · intro hc u hu d hd
    rw [hdec, if_pos hc] at hd
    unfold decode_plz at hd
    cases hfp : zlibD payload with
    | error e =>
      rw [hfp] at hd
      cases hd
    | ok fp =>
      rw [hfp] at hd
      dsimp only at hd
      by_cases hst : variant.save_type = some 0x32
      · rw [if_pos hst] at hd
        cases hsp : zlibD fp with
        | error e =>
          rw [hsp] at hd
          cases hd
        | ok v =>
          rw [hsp] at hd
          dsimp only at hd
          rw [hu] at hd
          dsimp only at hd
          by_cases hm : v.length % 4294967296 ≠ u
          · rw [if_pos hm] at hd
            cases hd
          · rw [if_neg hm] at hd
            cases hd
            omega
      · rw [if_neg hst] at hd
        dsimp only at hd
        rw [hu] at hd
        dsimp only at hd
        by_cases hm : fp.length % 4294967296 ≠ u
        · rw [if_pos hm] at hd
          cases hd
        · rw [if_neg hm] at hd
          cases hd
          omega
  · intro hc hu
    rw [hdec]
    have hnz : variant.compression ≠ "zlib" := by
      rw [hc]
      decide
    rw [if_neg hnz, if_pos hc]
    unfold decode_plm
    rw [hu]
  · intro hc u hu n hn hne
    have hnz : variant.compression ≠ "zlib" := by
      rw [hc]
      decide
    rw [hdec, if_neg hnz, if_pos hc]
    unfold decode_plm
    rw [hu]
    dsimp only
    rw [hn]
    dsimp only
    rw [if_pos hne]
    refine ⟨_, rfl, ?_⟩
    intro habs
    have hlen := congrArg String.length habs
    rw [String.length_append, String.length_append, String.length_append,
      String.length_append] at hlen
    have hcmp : ("decode_not_attempted").length <
        ("oodle decoded byte count mismatch: expected ").length := by
      decide
    omega
  · intro h1 h2
    rw [hdec, if_neg h1, if_neg h2]
  · cases hd : decode_to_gvas zlibD oodleRun oodleData bytes variant with
    | ok d =>
      rw [inspect_status_ok zlibD oodleRun oodleData bytes variant d hd]
      refine iff_of_false (by decide) ?_
      intro hx
      cases hx
    | error e =>
      rw [inspect_status_err zlibD oodleRun oodleData bytes variant e hd]
      by_cases he : e = "decode_not_attempted"
      · subst he
        rw [if_pos rfl]
        exact iff_of_true rfl rfl
      · rw [if_neg he]
        refine iff_of_false (by decide) ?_
        intro hx
        injection hx with hx
        exact absurd hx he
  · intro e hd hne
    rw [inspect_status_err zlibD oodleRun oodleData bytes variant e hd,
      if_neg hne]

/-- C7 witness: instantiated with identity-like decompressor oracles on a
13-byte unknown-magic file, the unknown-compression clause yields the
sentinel concretely. -/
theorem C7_wrapper_decoder_witness :
    decode_to_gvas (fun b => .ok b) (fun _ n => .ok n)
      (fun _ n => List.replicate n 0) (List.replicate 13 0)
      (detect_save_variant (List.replicate 13 0))
      = .error "decode_not_attempted" :=
  ((C7_wrapper_decoder (fun b => .ok b) (fun _ n => .ok n)
      (fun _ n => List.replicate n 0) (List.replicate 13 0)
      (detect_save_variant (List.replicate 13 0)) [0]
      rfl).2.2.2.2.2.1) (by decide) (by decide)

/-- Minimal model of the serde_json values the rawdata codecs build: an
object is an association list of fields.  Fields the extractor inspects
are strings; `u8`/length fields are numbers; the one `f32` field is kept
as its raw little-endian bytes (floats are never interpreted by the
extractor). -/
inductive JField where
  | s : String → JField
  | n : Nat → JField
  | b : Bool → JField
  | raw : Bytes → JField
deriving Repr, DecidableEq

/-- A JSON object as built by the codecs. -/
abbrev JObject := List (String × JField)

/-- Field lookup, the model of `Value::get`. -/
def jget (obj : JObject) (key : String) : Option JField :=
  (obj.find? (fun kv => kv.1 == key)).map (fun kv => kv.2)

/-- `value.get(key).and_then(Value::as_str)`. -/
def jgetStr (obj : JObject) (key : String) : Option String :=
  match jget obj key with
  | some (.s v) => some v
  | _ => none

/-- One lowercase hex digit (the `HEX` table of `to_hex`). -/
def hexDigitL (n : Nat) : Char :=
  if n < 10 then Char.ofNat (48 + n) else Char.ofNat (87 + n)

/-- Embedding of `to_hex` (src/save/rawdata/mod.rs, lines 66-74). -/
def to_hex (bytes : Bytes) : String :=
  String.mk (bytes.foldr
    (fun b acc => hexDigitL (b.toNat / 16) :: hexDigitL (b.toNat % 16) :: acc)
    [])

/-- Embedding of `passthrough_decode` (src/save/rawdata/mod.rs,
lines 101-107). -/
def passthrough_decode (bytes : Bytes) : JObject :=
  [("codec_status", .s "passthrough"), ("byte_len", .n bytes.length),
   ("original_bytes_hex", .s (to_hex bytes))]

/-- A byte cursor (`std::io::Cursor<&[u8]>`). -/
structure ByteCursor where
  bytes : Bytes
  pos : Nat
deriving Repr, DecidableEq

/-- Embedding of `decode_guid` (src/save/rawdata/mod.rs, lines 21-26).
`gvas::read_guid` consumes exactly 16 bytes and fails when fewer remain;
its `Guid::to_string` rendering is the oracle `guidStr`, applied to the 16
bytes read.  (The source interpolates the io error text; the model keeps a
fixed message.) -/
def decode_guid (guidStr : Bytes → String) (cur : ByteCursor) :
    Except String (String × ByteCursor) :=
  if cur.pos + 16 ≤ cur.bytes.length then
    .ok (normalizeGuidS (guidStr ((cur.bytes.drop cur.pos).take 16)),
      { cur with pos := cur.pos + 16 })
  else .error "failed to read guid"

/-- Embedding of `decode_fstring` (src/save/rawdata/mod.rs, lines 28-33).
`gvas::read_fstring` is the oracle `fstr`, given the bytes from the cursor
position; it reports the decoded optional string and the bytes consumed. -/
def decode_fstring (fstr : Bytes → Except String (Option String × Nat))
    (cur : ByteCursor) : Except String (String × ByteCursor) :=
  match fstr (cur.bytes.drop cur.pos) with
  | .error e => .error ("failed to read fstring: " ++ e)
  | .ok (none, _) => .error "failed to read fstring: value was null"
  | .ok (some v, consumed) => .ok (v, { cur with pos := cur.pos + consumed })

/-- Embedding of `decode_u8` (src/save/rawdata/mod.rs, lines 35-39). -/
def decode_u8 (cur : ByteCursor) : Except String (Nat × ByteCursor) :=
  if cur.pos < cur.bytes.length then
    .ok ((cur.bytes.getD cur.pos 0).toNat, { cur with pos := cur.pos + 1 })
  else .error "failed to read u8"

/-- Embedding of `decode_f32` (src/save/rawdata/mod.rs, lines 41-45); the
four bytes are kept raw. -/
def decode_f32 (cur : ByteCursor) : Except String (Bytes × ByteCursor) :=
  if cur.pos + 4 ≤ cur.bytes.length then
    .ok ((cur.bytes.drop cur.pos).take 4, { cur with pos := cur.pos + 4 })
  else .error "failed to read f32"

/-- Embedding of `read_bytes` (src/save/rawdata/mod.rs, lines 47-56). -/
def read_bytes (cur : ByteCursor) (len : Nat) :
    Except String (Bytes × ByteCursor) :=
  if cur.pos + len ≤ cur.bytes.length then
    .ok ((cur.bytes.drop cur.pos).take len, { cur with pos := cur.pos + len })
  else .error ("failed to read " ++ toString len ++ " bytes")

/-- Embedding of `read_remaining` (src/save/rawdata/mod.rs, lines 58-64). -/
def read_remaining (cur : ByteCursor) : Bytes :=
  cur.bytes.drop cur.pos

/-- Embedding of `base_camp::decode` (src/save/rawdata/base_camp.rs). -/
def base_camp_decode (guidStr : Bytes → String)
    (fstr : Bytes → Except String (Option String × Nat)) (bytes : Bytes) :
    Except String JObject := do
  let cur0 : ByteCursor := ⟨bytes, 0⟩
  let (id, cur1) ← decode_guid guidStr cur0
  let (name, cur2) ← decode_fstring fstr cur1
  let (state, cur3) ← decode_u8 cur2
  let (transform, cur4) ← read_bytes cur3 80
  let (area_range, cur5) ← decode_f32 cur4
  let (group_id_belong_to, cur6) ← decode_guid guidStr cur5
  let (fast_travel_local_transform, cur7) ← read_bytes cur6 80
  let (owner_map_object_instance_id, cur8) ← decode_guid guidStr cur7
  let unknown_tail := read_remaining cur8
  pure [("codec_status", .s "decoded"), ("id", .s id), ("name", .s name),
    ("state", .n state), ("transform_hex", .s (to_hex transform)),
    ("area_range", .raw area_range),
    ("group_id_belong_to", .s group_id_belong_to),
    ("fast_travel_local_transform_hex",
      .s (to_hex fast_travel_local_transform)),
    ("owner_map_object_instance_id", .s owner_map_object_instance_id),
    ("unknown_tail_hex", .s (to_hex unknown_tail)),
    ("original_bytes_hex", .s (to_hex bytes))]

/-- Embedding of `worker_director::decode`
(src/save/rawdata/worker_director.rs). -/
def worker_director_decode (guidStr : Bytes → String) (bytes : Bytes) :
    Except String JObject := do
  let cur0 : ByteCursor := ⟨bytes, 0⟩
  let (id, cur1) ← decode_guid guidStr cur0
  let (spawn_transform, cur2) ← read_bytes cur1 80
  let (current_order_type, cur3) ← decode_u8 cur2
  let (current_battle_type, cur4) ← decode_u8 cur3
  let (container_id, cur5) ← decode_guid guidStr cur4
  let unknown_tail := read_remaining cur5
  pure [("codec_status", .s "decoded"), ("id", .s id),
    ("spawn_transform_hex", .s (to_hex spawn_transform)),
    ("current_order_type", .n current_order_type),
    ("current_battle_type", .n current_battle_type),
    ("container_id", .s container_id),
    ("unknown_tail_hex", .s (to_hex unknown_tail)),
    ("original_bytes_hex", .s (to_hex bytes))]

/-- Embedding of `character_container::decode`
(src/save/rawdata/character_container.rs). -/
def character_container_decode (guidStr : Bytes → String) (bytes : Bytes) :
    Except String JObject :=
  if bytes.isEmpty then
    .ok [("codec_status", .s "decoded"), ("is_empty", .b true),
         ("original_bytes_hex", .s "")]
  else do
    let cur0 : ByteCursor := ⟨bytes, 0⟩
    let (player_uid, cur1) ← decode_guid guidStr cur0
    let (instance_id, cur2) ← decode_guid guidStr cur1
    let (permission_tribe_id, cur3) ← decode_u8 cur2
    let unknown_tail := read_remaining cur3
    pure [("codec_status", .s "decoded"), ("is_empty", .b false),
      ("player_uid", .s player_uid), ("instance_id", .s instance_id),
      ("permission_tribe_id", .n permission_tribe_id),
      ("unknown_tail_hex", .s (to_hex unknown_tail)),
      ("original_bytes_hex", .s (to_hex bytes))]

/-- Embedding of `group::decode` (src/save/rawdata/group.rs): the hex
passthrough, always succeeding. -/
def group_decode (bytes : Bytes) : Except String JObject :=
  .ok (passthrough_decode bytes)

/-- Modelled from the spec: src/save/rawdata/character.rs is declared
(`pub mod character` in mod.rs) and dispatched by custom_registry.rs but
the file is absent from the sources.  Spec §4.7: "Character, Group, Work,
passthrough: currently store the original hex blob verbatim", so its
decode is the hex passthrough, exactly like group.rs. -/
def character_decode (bytes : Bytes) : Except String JObject :=
  .ok (passthrough_decode bytes)

/-- Modelled from the spec: src/save/rawdata/work.rs is declared
(`pub mod work` in mod.rs) and dispatched by custom_registry.rs but the
file is absent from the sources.  Spec §4.7 groups Work with the verbatim
hex-blob codecs, so its decode is the hex passthrough, like group.rs. -/
def work_decode (bytes : Bytes) : Except String JObject :=
  .ok (passthrough_decode bytes)

/-- The codec identities registered in `custom_registry`
(src/save/custom_registry.rs, lines 11-17). -/
inductive CodecKind where
  | passthroughC | baseCampC | workerDirectorC | characterContainerC
  | characterC | groupC | workC
deriving Repr, DecidableEq

/-- Embedding of the registry map built by `custom_registry`
(src/save/custom_registry.rs, lines 100-146); keys are unique, so the
association list models the `HashMap`. -/
def custom_registry : List (String × CodecKind) :=
  [(".worldSaveData.GroupSaveDataMap", .groupC),
   (".worldSaveData.CharacterSaveParameterMap.Value.RawData", .characterC),
   (".worldSaveData.ItemContainerSaveData.Value.RawData", .passthroughC),
   (".worldSaveData.ItemContainerSaveData.Value.Slots.Slots.RawData",
     .passthroughC),
   (".worldSaveData.CharacterContainerSaveData.Value.Slots.Slots.RawData",
     .characterContainerC),
   (".worldSaveData.DynamicItemSaveData.DynamicItemSaveData.RawData",
     .passthroughC),
   (".worldSaveData.FoliageGridSaveDataMap.Value.ModelMap.Value.RawData",
     .passthroughC),
   (".worldSaveData.FoliageGridSaveDataMap.Value.ModelMap.Value.InstanceDataMap.Value.RawData",
     .passthroughC),
   (".worldSaveData.BaseCampSaveData.Value.RawData", .baseCampC),
   (".worldSaveData.BaseCampSaveData.Value.WorkerDirector.RawData",
     .workerDirectorC),
   (".worldSaveData.BaseCampSaveData.Value.WorkCollection.RawData",
     .passthroughC),
   (".worldSaveData.BaseCampSaveData.Value.ModuleMap", .passthroughC),
   (".worldSaveData.WorkSaveData", .workC),
   (".worldSaveData.MapObjectSaveData", .passthroughC),
   (".worldSaveData.GuildExtraSaveDataMap.Value.GuildItemStorage.RawData",
     .passthroughC),
   (".worldSaveData.GuildExtraSaveDataMap.Value.Lab.RawData",
     .passthroughC)]

/-- `custom_registry().get(path)`. -/
def registryLookup (path : String) : Option CodecKind :=
  (custom_registry.find? (fun kv => kv.1 == path)).map (fun kv => kv.2)

/-- Dispatch of `RawCodec::decode` for each registered codec identity
(src/save/custom_registry.rs, lines 19-87). -/
def codec_decode (guidStr : Bytes → String)
    (fstr : Bytes → Except String (Option String × Nat)) (kind : CodecKind)
    (bytes : Bytes) : Except String JObject :=
  match kind with
  | .passthroughC => .ok (passthrough_decode bytes)
  | .baseCampC => base_camp_decode guidStr fstr bytes
  | .workerDirectorC => worker_director_decode guidStr bytes
  | .characterContainerC => character_container_decode guidStr bytes
  | .characterC => character_decode bytes
  | .groupC => group_decode bytes
  | .workC => work_decode bytes

/-- Embedding of `decode_raw` (src/save/custom_registry.rs,
lines 149-159). -/
def decode_raw (guidStr : Bytes → String)
    (fstr : Bytes → Except String (Option String × Nat)) (path : String)
    (bytes : Bytes) : Except String (String × JObject) :=
  match registryLookup path with
  | some codec =>
    match codec_decode guidStr fstr codec bytes with
    | .error e => .error e
    | .ok value => .ok ("decoded", value)
  | none => .ok ("passthrough", passthrough_decode bytes)

/-- The claim's "structure-interpreting" codecs: those of §4.7 that parse
fields out of the blob (BaseCamp, WorkerDirector, CharacterContainer); the
spec itself groups Character, Group, Work and passthrough as verbatim
hex-blob storers. -/
def structureInterpreting (kind : CodecKind) : Bool :=
  match kind with
  | .baseCampC | .workerDirectorC | .characterContainerC => true
  | _ => false

/-- C8 counterexample: the path `.worldSaveData.MapObjectSaveData` is
registered with the passthrough codec itself — not a structure-interpreting
codec — yet `decode_raw` reports status `"decoded"` for it, refuting
"status is decoded exactly when a structure-interpreting codec handled the
bytes". -/
theorem C8_counterexample :
    decode_raw (fun _ => "") (fun _ => .error "")
        ".worldSaveData.MapObjectSaveData" []
      = .ok ("decoded", passthrough_decode []) ∧
    registryLookup ".worldSaveData.MapObjectSaveData"
      = some CodecKind.passthroughC ∧
    structureInterpreting CodecKind.passthroughC = false :=
  ⟨rfl, rfl, rfl⟩

/-- C8 (amended): `decode_raw` returns status `"decoded"` exactly when the
path has a registered codec — which may itself be a per-path registered
passthrough — and its decode succeeds, and status `"passthrough"` exactly
when the path is unregistered; unregistered paths always succeed with the
passthrough value. -/
theorem C8_amended_decode_raw (guidStr : Bytes → String)
    (fstr : Bytes → Except String (Option String × Nat)) (path : String)
    (bytes : Bytes) :
    (∀ st v, decode_raw guidStr fstr path bytes = .ok (st, v) →
       ((st = "decoded" ↔ (registryLookup path).isSome = true) ∧
        (st = "passthrough" ↔ registryLookup path = none))) ∧
    (registryLookup path = none →
       decode_raw guidStr fstr path bytes
         = .ok ("passthrough", passthrough_decode bytes)) := by
  constructor
  · intro st v hd
    unfold decode_raw at hd
    cases hr : registryLookup path with
    | some codec =>
      rw [hr] at hd
      dsimp only at hd
      cases hc : codec_decode guidStr fstr codec bytes with
      | error e =>
        rw [hc] at hd
        cases hd
      | ok value =>
        rw [hc] at hd
        dsimp only at hd
        injection hd with hd
        injection hd with hd1 hd2
        subst hd1
        constructor
        · exact iff_of_true rfl rfl
        · refine iff_of_false (by decide) ?_
          intro hx
          cases hx
    | none =>
      rw [hr] at hd
      dsimp only at hd
      injection hd with hd
      injection hd with hd1 hd2
      subst hd1
      constructor
      · refine iff_of_false (by decide) ?_
        intro hx
        cases hx
      · exact iff_of_true rfl rfl
  · intro hr
    unfold decode_raw
    rw [hr]

/-- C8 witness: the amended characterization applied concretely to a
registered structural path (empty container slot) and to an unregistered
path. -/
theorem C8_amended_decode_raw_witness :
    ("decoded" = "decoded" ↔
      (registryLookup
        ".worldSaveData.CharacterContainerSaveData.Value.Slots.Slots.RawData").isSome
        = true) ∧
    decode_raw (fun _ => "") (fun _ => .error "") "unregistered.path" [7]
      = .ok ("passthrough", passthrough_decode [7]) :=
  ⟨((C8_amended_decode_raw (fun _ => "") (fun _ => .error "")
      ".worldSaveData.CharacterContainerSaveData.Value.Slots.Slots.RawData"
      []).1 "decoded"
      [("codec_status", .s "decoded"), ("is_empty", .b true),
       ("original_bytes_hex", .s "")] rfl).1,
   (C8_amended_decode_raw (fun _ => "") (fun _ => .error "")
      "unregistered.path" [7]).2 rfl⟩

mutual
/-- Model of `gvas::StructPropertyValue` restricted to the constructors the
extractor matches on (`Guid`, `CustomStruct`); every other well-known
struct shape is `otherStruct`.  A guid carries its `to_string` rendering. -/
inductive StructVal where
  | guid : String → StructVal
  | customStruct : List (String × List Property) → StructVal
  | otherStruct : StructVal

/-- Model of `gvas::properties::Property` restricted to the constructors
the extractor's helpers match on (normalize.rs, lines 716-813); everything
else is `otherProp`.  `HashableIndexMap<String, Vec<Property>>` becomes an
association list preserving insertion order. -/
inductive Property where
  | boolProp : Bool → Property
  | intProp : Int → Property
  | int64Prop : Int → Property
  | byteProp : Option Nat → Property
  | strProp : Option String → Property
  | nameProp : Option String → Property
  | enumProp : String → Property
  | structProp : StructVal → Property
  | structPropVal : StructVal → Property
  | arrayBytes : Bytes → Property
  | arrayNames : List (Option String) → Property
  | arrayStrings : List (Option String) → Property
  | arrayEnums : List String → Property
  | arrayStructs : List StructVal → Property
  | arrayProps : List Property → Property
  | arrayOther : Property
  | mapProps : List (Property × Property) → Property
  | otherProp : Property
end

/-- The extractor's property mapping type
(`HashableIndexMap<String, Vec<Property>>`). -/
abbrev PropMap := List (String × List Property)

/-- The root mapping of a parsed GVAS file
(`HashableIndexMap<String, Property>`). -/
abbrev RootMap := List (String × Property)

/-- Embedding of `get_first_prop` (src/save/normalize.rs, lines 716-721). -/
def get_first_prop (properties : PropMap) (key : String) : Option Property :=
  ((properties.find? (fun kv => kv.1 == key)).map (fun kv => kv.2)).bind
    List.head?

/-- Embedding of `as_custom_struct` (src/save/normalize.rs,
lines 723-736). -/
def as_custom_struct (property : Property) : Option PropMap :=
  match property with
  | .structProp (.customStruct props) => some props
  | .structPropVal (.customStruct props) => some props
  | _ => none

/-- Embedding of `get_array_bytes` (src/save/normalize.rs,
lines 738-743). -/
def get_array_bytes (property : Option Property) : Option Bytes :=
  match property with
  | some (.arrayBytes bs) => some bs
  | _ => none

/-- Embedding of `get_guid_uid` (src/save/normalize.rs, lines 745-757). -/
def get_guid_uid (property : Option Property) : Option String :=
  match property with
  | some (.structProp (.guid g)) => some (normalizeGuidS g)
  | some (.structPropVal (.guid g)) => some (normalizeGuidS g)
  | _ => none

/-- Embedding of `get_bool` (src/save/normalize.rs, lines 759-764). -/
def get_bool (property : Option Property) : Option Bool :=
  match property with
  | some (.boolProp v) => some v
  | _ => none

/-- Embedding of `get_i32` (src/save/normalize.rs, lines 766-775):
`IntProperty` or a `ByteProperty` holding a plain byte. -/
def get_i32 (property : Option Property) : Option Int :=
  match property with
  | some (.intProp v) => some v
  | some (.byteProp (some level)) => some (Int.ofNat level)
  | _ => none

/-- Embedding of `get_i64` (src/save/normalize.rs, lines 777-782). -/
def get_i64 (property : Option Property) : Option Int :=
  match property with
  | some (.int64Prop v) => some v
  | _ => none

/-- Embedding of `get_string` (src/save/normalize.rs, lines 784-791). -/
def get_string (property : Option Property) : Option String :=
  match property with
  | some (.strProp v) => v
  | some (.nameProp v) => v
  | some (.enumProp v) => some v
  | _ => none

/-- Embedding of `get_string_array` (src/save/normalize.rs,
lines 793-813): names/strings flattened dropping nulls, enums verbatim,
generic properties filtered to their underlying strings, everything else
empty. -/
def get_string_array (property : Option Property) : List String :=
  match property with
  | some (.arrayNames names) => names.filterMap id
  | some (.arrayStrings strings) => strings.filterMap id
  | some (.arrayEnums enums) => enums
  | some (.arrayProps props) =>
    props.filterMap (fun entry =>
      match entry with
      | .nameProp v => v
      | .strProp v => v
      | .enumProp v => some v
      | _ => none)
  | _ => []

/-- Embedding of `ExtractedAssignment` (src/save/normalize.rs,
lines 64-73).  `raw_file_ref` (the `Uuid` passed through unchanged) is
omitted from the model. -/
structure ExtractedAssignment where
  base_id : String
  pal_instance_id : String
  assignment_kind : Option String
  assignment_target : Option String
  priority : Option Int
  raw_entity_path : String
deriving Repr, DecidableEq

/-- The `HashMap::insert` of `base_to_container`: replace an existing key,
otherwise add the pair.  (Iteration order of the source `HashMap` is
unspecified; the model fixes insertion order, which only affects the
ordering of the assignment list, not its contents.) -/
def insertAssoc (m : List (String × String)) (k v : String) :
    List (String × String) :=
  if m.any (fun kv => kv.1 == k) then
    m.map (fun kv => if kv.1 == k then (k, v) else kv)
  else m ++ [(k, v)]

/-- One iteration of the `BaseCampSaveData` loop of
`parse_base_assignments` (src/save/normalize.rs, lines 556-598): decode the
base camp blob for `id`, the nested WorkerDirector blob for
`container_id`, and record the pair; any missing piece skips the entry.
(The `basecamp_count` metric counter is omitted.) -/
def baseStep (guidStr : Bytes → String)
    (fstr : Bytes → Except String (Option String × Nat))
    (acc : List (String × String)) (entry : Property × Property) :
    List (String × String) :=
  match as_custom_struct entry.2 with
  | none => acc
  | some base_struct =>
    match get_array_bytes (get_first_prop base_struct "RawData") with
    | none => acc
    | some base_raw =>
      match decode_raw guidStr fstr
          ".worldSaveData.BaseCampSaveData.Value.RawData" base_raw with
      | .error _ => acc
      | .ok (_, base_data) =>
        match jgetStr base_data "id" with
        | none => acc
        | some base_id =>
          let container_id :=
            (((get_first_prop base_struct "WorkerDirector").bind
              as_custom_struct).bind (fun worker =>
                get_array_bytes (get_first_prop worker "RawData"))).bind
              (fun worker_raw =>
                match decode_raw guidStr fstr
                    ".worldSaveData.BaseCampSaveData.Value.WorkerDirector.RawData"
                    worker_raw with
                | .ok (_, worker_data) => jgetStr worker_data "container_id"
                | .error _ => none)
          match container_id with
          | some cid => insertAssoc acc base_id cid
          | none => acc

/-- One slot of the `Slots` array (src/save/normalize.rs, lines 623-652):
non-custom-struct slots, missing/undecodable `RawData`, missing
`instance_id`, and the all-zero instance id are skipped; `SlotIndex`
defaults to 0. -/
def slotStep (guidStr : Bytes → String)
    (fstr : Bytes → Except String (Option String × Nat))
    (acc : List (Int × String)) (slot : StructVal) : List (Int × String) :=
  match slot with
  | .customStruct slot_props =>
    let slot_index := (get_i32 (get_first_prop slot_props "SlotIndex")).getD 0
    match get_array_bytes (get_first_prop slot_props "RawData") with
    | none => acc
    | some slot_raw =>
      match decode_raw guidStr fstr
          ".worldSaveData.CharacterContainerSaveData.Value.Slots.Slots.RawData"
          slot_raw with
      | .error _ => acc
      | .ok (_, slot_data) =>
        match jgetStr slot_data "instance_id" with
        | none => acc
        | some instance_id =>
          if instance_id == "00000000000000000000000000000000" then acc
          else acc ++ [(slot_index, instance_id)]
  | _ => acc

/-- `container_slots.entry(id).or_default().push(...)` for a batch of
slots from one container entry: nothing is recorded for an empty batch. -/
def pushSlots (m : List (String × List (Int × String))) (k : String)
    (vs : List (Int × String)) : List (String × List (Int × String)) :=
  if vs.isEmpty then m
  else if m.any (fun kv => kv.1 == k) then
    m.map (fun kv => if kv.1 == k then (kv.1, kv.2 ++ vs) else kv)
  else m ++ [(k, vs)]

/-- One iteration of the `CharacterContainerSaveData` loop
(src/save/normalize.rs, lines 605-653): the container id comes from the
entry key's `ID` guid; each decodable non-empty slot contributes
`(slot_index, instance_id)`.  (The `container_count` metric counter is
omitted.) -/
def containerStep (guidStr : Bytes → String)
    (fstr : Bytes → Except String (Option String × Nat))
    (acc : List (String × List (Int × String)))
    (entry : Property × Property) : List (String × List (Int × String)) :=
  match (as_custom_struct entry.1).bind
      (fun key_props => get_guid_uid (get_first_prop key_props "ID")) with
  | none => acc
  | some container_id =>
    match as_custom_struct entry.2 with
    | none => acc
    | some container_struct =>
      match get_first_prop container_struct "Slots" with
      | some (.arrayStructs structs) =>
        pushSlots acc container_id (structs.foldl (slotStep guidStr fstr) [])
      | _ => acc

/-- Lookup in the `container_slots` map. -/
def slotsLookup (m : List (String × List (Int × String))) (k : String) :
    Option (List (Int × String)) :=
  (m.find? (fun kv => kv.1 == k)).map (fun kv => kv.2)

/-- The assignment row built by the cross-product loop
(src/save/normalize.rs, lines 660-671). -/
def mkAssignment (base_id container_id : String) (slot_index : Int)
    (pal_instance_id : String) : ExtractedAssignment :=
  { base_id := base_id, pal_instance_id := pal_instance_id,
    assignment_kind := some "base_slot",
    assignment_target := some (toString slot_index),
    priority := some slot_index,
    raw_entity_path := "worldSaveData.CharacterContainerSaveData["
      ++ container_id ++ "].Slots[" ++ toString slot_index ++ "]" }

/-- The cross-product loop (src/save/normalize.rs, lines 656-674): for
each `(base_id, container_id)` pair, one assignment per recorded slot of
that container. -/
def crossAssignments (btc : List (String × String))
    (slots : List (String × List (Int × String))) :
    List ExtractedAssignment :=
  match btc with
  | [] => []
  | (b, c) :: rest =>
    (match slotsLookup slots c with
     | none => []
     | some slotList =>
       slotList.map (fun si => mkAssignment b c si.1 si.2))
      ++ crossAssignments rest slots

/-- The `BaseCampSaveData` map entries of `worldSaveData`
(src/save/normalize.rs, lines 552-555): first property, `Properties` map
variant, else nothing. -/
def baseEntriesOf (world_props : PropMap) : List (Property × Property) :=
  match get_first_prop world_props "BaseCampSaveData" with
  | some (.mapProps value) => value
  | _ => []

/-- The `CharacterContainerSaveData` map entries
(src/save/normalize.rs, lines 601-604). -/
def containerEntriesOf (world_props : PropMap) : List (Property × Property) :=
  match get_first_prop world_props "CharacterContainerSaveData" with
  | some (.mapProps value) => value
  | _ => []

/-- The finished `base_to_container` map. -/
def baseToContainerOf (guidStr : Bytes → String)
    (fstr : Bytes → Except String (Option String × Nat))
    (world_props : PropMap) : List (String × String) :=
  (baseEntriesOf world_props).foldl (baseStep guidStr fstr) []

/-- The finished `container_slots` map. -/
def containerSlotsOf (guidStr : Bytes → String)
    (fstr : Bytes → Except String (Option String × Nat))
    (world_props : PropMap) : List (String × List (Int × String)) :=
  (containerEntriesOf world_props).foldl (containerStep guidStr fstr) []

/-- Embedding of `parse_base_assignments` (src/save/normalize.rs,
lines 544-677).  The source signature returns `Result` but has no error
path (every failure skips its entry), so the model is total; metric
counters are omitted. -/
def parse_base_assignments (guidStr : Bytes → String)
    (fstr : Bytes → Except String (Option String × Nat))
    (world_props : PropMap) : List ExtractedAssignment :=
  crossAssignments (baseToContainerOf guidStr fstr world_props)
    (containerSlotsOf guidStr fstr world_props)

/-- The structured error a property-stream parse can report: the gvas
crate's `MissingHint(kind, path, offset)` (offset dropped) or any other
parser error. -/
inductive StreamErr where
  | missingHint : String → String → StreamErr
  | other : String → StreamErr
deriving Repr, DecidableEq

/-- The type of the per-blob property-stream parser.  It abstracts
`parse_property_stream` (src/save/normalize.rs, lines 679-714), whose body
is driven by the external gvas crate (`read_string`, `Property::new`): fed
the blob, it yields the assembled property mapping and the cursor position
after the terminating `None`, or a structured error. -/
abbrev StreamParser := Bytes → Except StreamErr (PropMap × Nat)

/-- Embedding of `ExtractedPlayer` (src/save/normalize.rs, lines 37-46);
`raw_file_ref` omitted as for assignments. -/
structure ExtractedPlayer where
  player_uid : String
  player_instance_id : Option String
  player_name : Option String
  guild_id : Option String
  level : Option Int
  raw_entity_path : String
deriving Repr, DecidableEq

/-- Embedding of `ExtractedPal` (src/save/normalize.rs, lines 48-62);
`raw_file_ref` omitted. -/
structure ExtractedPal where
  pal_instance_id : String
  owner_player_uid : Option String
  species_id : Option String
  nickname : Option String
  gender : Option String
  level : Option Int
  exp : Option Int
  passive_skill_ids : List String
  mastered_waza_ids : List String
  equip_waza_ids : List String
  raw_entity_path : String
deriving Repr, DecidableEq

/-- A row pushed by the character walk, into `players` or `pals`. -/
inductive PlannerRow where
  | player : ExtractedPlayer → PlannerRow
  | pal : ExtractedPal → PlannerRow
deriving Repr, DecidableEq

/-- The 32-zero normalized guid (`is_zero_player_uid` comparison constant,
src/save/normalize.rs, line 389). -/
def zeroGuid32 : String := "00000000000000000000000000000000"

/-- The readable part of one character-map entry (src/save/normalize.rs,
lines 359-388): both key and value must be custom structs, and
`InstanceId`, `PlayerUId` (guids) and `RawData` (byte array) must all be
present; otherwise the entry is skipped. -/
def readEntryKey (entry_key entry_value : Property) :
    Option (String × String × Bytes) :=
  match as_custom_struct entry_key, as_custom_struct entry_value with
  | some key_props, some value_props =>
    match get_guid_uid (get_first_prop key_props "InstanceId"),
        get_guid_uid (get_first_prop key_props "PlayerUId"),
        get_array_bytes (get_first_prop value_props "RawData") with
    | some instance_id, some player_uid, some raw_data =>
      some (instance_id, player_uid, raw_data)
    | _, _, _ => none
  | _, _ => none

/-- The selection rule of the character walk (src/save/normalize.rs,
lines 389-401): a readable entry is retained unless its `PlayerUId` is all
zeros and its `InstanceId` is not in the required set. -/
def entrySelected (required : List String)
    (entry_key entry_value : Property) : Bool :=
  match readEntryKey entry_key entry_value with
  | none => false
  | some (instance_id, player_uid, _) =>
    !(player_uid == zeroGuid32 && !(required.contains instance_id))

/-- Embedding of the per-entry body of `parse_character_map`
(src/save/normalize.rs, lines 357-501): selection, embedded
property-stream parse of `RawData` (a `MissingHint` or other stream error
propagates), the 4 skipped bytes and optional `group_id` guid from the
tail, the `SaveParameter` lookup, and the Player/Pal row construction.
Progress emission is omitted. -/
def processEntry (streamParse : StreamParser) (guidStr : Bytes → String)
    (required : List String) (entry_key entry_value : Property) :
    Except StreamErr (Option PlannerRow) :=
  match readEntryKey entry_key entry_value with
  | none => .ok none
  | some (instance_id, player_uid, raw_data) =>
    if player_uid == zeroGuid32 && !(required.contains instance_id) then
      .ok none
    else
      match streamParse raw_data with
      | .error e => .error e
      | .ok (object_props, pos) =>
        let tail := raw_data.drop pos
        if tail.length < 4 then .ok none
        else
          let group_id :=
            if 20 ≤ tail.length then
              some (normalizeGuidS (guidStr ((tail.drop 4).take 16)))
            else none
          match (get_first_prop object_props "SaveParameter").bind
              as_custom_struct with
          | none => .ok none
          | some save_parameter_props =>
            let is_player :=
              (get_bool (get_first_prop save_parameter_props
                "IsPlayer")).getD false
            let nickname :=
              get_string (get_first_prop save_parameter_props "NickName")
            let level :=
              get_i32 (get_first_prop save_parameter_props "Level")
            let raw_entity_path :=
              "worldSaveData.CharacterSaveParameterMap[" ++ instance_id
                ++ "]"
            if is_player then
              .ok (some (.player
                { player_uid := player_uid,
                  player_instance_id := some instance_id,
                  player_name := nickname, guild_id := group_id,
                  level := level, raw_entity_path := raw_entity_path }))
            else
              .ok (some (.pal
                { pal_instance_id := instance_id,
                  owner_player_uid := get_guid_uid
                    (get_first_prop save_parameter_props "OwnerPlayerUId"),
                  species_id := get_string
                    (get_first_prop save_parameter_props "CharacterID"),
                  nickname := nickname,
                  gender := get_string
                    (get_first_prop save_parameter_props "Gender"),
                  level := level,
                  exp := get_i64
                    (get_first_prop save_parameter_props "Exp"),
                  passive_skill_ids := get_string_array
                    (get_first_prop save_parameter_props "PassiveSkillList"),
                  mastered_waza_ids := get_string_array
                    (get_first_prop save_parameter_props "MasteredWaza"),
                  equip_waza_ids := get_string_array
                    (get_first_prop save_parameter_props "EquipWaza"),
                  raw_entity_path := raw_entity_path }))

/-- The sequential entry loop of `parse_character_map`: an error in any
entry aborts the walk. -/
def walkEntries (streamParse : StreamParser) (guidStr : Bytes → String)
    (required : List String) :
    List (Property × Property) → Except StreamErr (List PlannerRow)
  | [] => .ok []
  | (k, v) :: rest =>
    match processEntry streamParse guidStr required k v with
    | .error e => .error e
    | .ok none => walkEntries streamParse guidStr required rest
    | .ok (some row) =>
      match walkEntries streamParse guidStr required rest with
      | .error e => .error e
      | .ok rows => .ok (row :: rows)

/-- Errors of `parse_character_map` (the source stringifies them into its
`Result<_, String>`). -/
inductive WalkErr where
  | missingMap : WalkErr
  | notMap : WalkErr
  | stream : StreamErr → WalkErr
deriving Repr, DecidableEq

/-- Embedding of `parse_character_map` (src/save/normalize.rs,
lines 301-517): the map must exist and be a `Properties` map; rows come
from the entry loop.  Stats and progress are omitted. -/
def parse_character_map (streamParse : StreamParser)
    (guidStr : Bytes → String) (world_props : PropMap)
    (required : List String) : Except WalkErr (List PlannerRow) :=
  match get_first_prop world_props "CharacterSaveParameterMap" with
  | none => .error .missingMap
  | some p =>
    match p with
    | .mapProps map_entries =>
      match walkEntries streamParse guidStr required map_entries with
      | .error e => .error (.stream e)
      | .ok rows => .ok rows
    | _ => .error .notMap

/-- The player rows of the walk, in order. -/
def rowsPlayers (rows : List PlannerRow) : List ExtractedPlayer :=
  rows.filterMap (fun r =>
    match r with
    | .player p => some p
    | .pal _ => none)

/-- The pal rows of the walk, in order. -/
def rowsPals (rows : List PlannerRow) : List ExtractedPal :=
  rows.filterMap (fun r =>
    match r with
    | .player _ => none
    | .pal p => some p)

/-- Embedding of `ExtractedPlannerData` (src/save/normalize.rs,
lines 75-80). -/
structure ExtractedPlannerData where
  players : List ExtractedPlayer
  pals : List ExtractedPal
  assignments : List ExtractedAssignment
deriving Repr, DecidableEq

/-- The required set collected from the assignments
(src/save/normalize.rs, lines 168-171); the source `HashSet` is modelled
by the list with `contains` membership. -/
def requiredIdsOf (assignments : List ExtractedAssignment) : List String :=
  assignments.map (fun a => a.pal_instance_id)

/-- The post-parse extraction phases of
`extract_from_level_sav_with_progress` (src/save/normalize.rs,
lines 161-197): assignments, the required set, then the character walk. -/
def extractFromWorldProps (streamParse : StreamParser)
    (guidStr : Bytes → String)
    (fstr : Bytes → Except String (Option String × Nat))
    (world_props : PropMap) : Except WalkErr ExtractedPlannerData :=
  let assignments := parse_base_assignments guidStr fstr world_props
  let required := requiredIdsOf assignments
  match parse_character_map streamParse guidStr world_props required with
  | .error e => .error e
  | .ok rows =>
    .ok { players := rowsPlayers rows, pals := rowsPals rows,
          assignments := assignments }

/-- Outcome of one top-level GVAS parse attempt
(`gvas::GvasFile::read_with_hints`, external): the parsed root mapping, a
structured `MissingHint(kind, path)`, or another error. -/
inductive GvasParseOutcome where
  | parsed : RootMap → GvasParseOutcome
  | missingHint : String → String → GvasParseOutcome
  | otherErr : String → GvasParseOutcome

/-- The hint map (`HashMap<String, String>` of path → type). -/
abbrev HintMap := List (String × String)

/-- `hints.contains_key(path)`. -/
def hintContains (hints : HintMap) (path : String) : Bool :=
  hints.any (fun kv => kv.1 == path)

/-- `hints.get(path)`. -/
def hintLookup (hints : HintMap) (path : String) : Option String :=
  (hints.find? (fun kv => kv.1 == path)).map (fun kv => kv.2)

/-- `hints.insert(path, ty)`. -/
def hintInsert (hints : HintMap) (path ty : String) : HintMap :=
  if hintContains hints path then
    hints.map (fun kv => if kv.1 == path then (path, ty) else kv)
  else hints ++ [(path, ty)]

/-- Embedding of `simplify_hint_path` (src/save/normalize.rs,
lines 275-285). -/
def simplify_hint_path (path : String) : String :=
  String.intercalate "." ((path.splitOn ".").filter (fun segment =>
    !(segment == "StructProperty" || segment == "MapProperty"
      || segment == "ArrayProperty" || segment == "SetProperty")))

/-- Errors of the hint-resolution loop: a stuck `MissingHint` for a path
already present, the bounded-resolution `InvalidProperty` error, or a
propagated parser error. -/
inductive ResolveErr where
  | missingHint : String → String → ResolveErr
  | bounded : ResolveErr
  | other : String → ResolveErr

/-- Embedding of `HintParseOutcome` (src/save/normalize.rs,
lines 200-207); the parsed `GvasFile` is its root mapping. -/
structure HintParseOutcome where
  gvas : RootMap
  hints : HintMap
  hint_pass_count : Nat
  hint_count_start : Nat
  hint_count_end : Nat

/-- The loop of `parse_with_auto_hints` (src/save/normalize.rs,
lines 219-272), made total with a fuel argument: the entry point supplies
65 units, one more than `MAX_FALLBACK_PASSES = 64`, and the bound check
`hint_pass_count >= 64` (tested before the duplicate-path check, as in the
source) fires before fuel can run out.  `cache_discovered_hint` (global
cache and append-only discovery file) is a side effect outside the model;
the insertion into the working hint map is retained. -/
def autoHintLoop (gvasParse : HintMap → GvasParseOutcome)
    (mirrored : HintMap) (hint_count_start : Nat) :
    Nat → Nat → HintMap → Except ResolveErr HintParseOutcome
  | 0, _, _ => .error .bounded
  | fuel + 1, hint_pass_count, hints =>
    match gvasParse hints with
    | .parsed root =>
      .ok { gvas := root, hints := hints,
            hint_pass_count := hint_pass_count,
            hint_count_start := hint_count_start,
            hint_count_end := hints.length }
    | .otherErr e => .error (.other e)
    | .missingHint kind path =>
      if 64 ≤ hint_pass_count then .error .bounded
      else if hintContains hints path then .error (.missingHint kind path)
      else
        autoHintLoop gvasParse mirrored hint_count_start fuel
          (hint_pass_count + 1)
          (hintInsert hints path
            ((hintLookup mirrored (simplify_hint_path path)).getD kind))

/-- Embedding of `parse_with_auto_hints` (src/save/normalize.rs,
lines 209-273): the working map starts as the mirrored hint table
(`merged_hints_with_cache`, the claim's seed table as materialized at loop
entry), the pass counter at 0. -/
def parse_with_auto_hints (gvasParse : HintMap → GvasParseOutcome)
    (mirrored : HintMap) : Except ResolveErr HintParseOutcome :=
  autoHintLoop gvasParse mirrored mirrored.length 65 0 mirrored

/-- Embedding of `get_world_save_data_props` (src/save/normalize.rs,
lines 287-292). -/
def get_world_save_data_props (top_level : RootMap) : Option PropMap :=
  ((top_level.find? (fun kv => kv.1 == "worldSaveData")).map
    (fun kv => kv.2)).bind as_custom_struct

/-- Errors of the composed Level.sav extraction, mirroring the
stringified error wrapping of `extract_from_level_sav_with_progress`
(src/save/normalize.rs, lines 151-185). -/
inductive PipelineErr where
  | gvasParseFailed : ResolveErr → PipelineErr
  | missingWorld : PipelineErr
  | characterMapFailed : WalkErr → PipelineErr

/-- The extraction pipeline from decoded GVAS bytes onward
(src/save/normalize.rs, lines 150-197): the hint-resolution loop wraps
only the top-level parse `gvasParse`; the later per-character blob parses
(`streamParse`) sit outside the loop and their errors surface directly. -/
def extract_pipeline (gvasParse : HintMap → GvasParseOutcome)
    (mirrored : HintMap) (streamParse : StreamParser)
    (guidStr : Bytes → String)
    (fstr : Bytes → Except String (Option String × Nat)) :
    Except PipelineErr ExtractedPlannerData :=
  match parse_with_auto_hints gvasParse mirrored with
  | .error e => .error (.gvasParseFailed e)
  | .ok outcome =>
    match get_world_save_data_props outcome.gvas with
    | none => .error .missingWorld
    | some world_props =>
      match extractFromWorldProps streamParse guidStr fstr world_props with
      | .error e => .error (.characterMapFailed e)
      | .ok data => .ok data

lemma mem_crossAssignments_of (slots : List (String × List (Int × String)))
    (b c : String) (i : Int) (inst : String) (s : List (Int × String))
    (btc : List (String × String)) (hbc : (b, c) ∈ btc)
    (hs : slotsLookup slots c = some s) (hmem : (i, inst) ∈ s) :
    mkAssignment b c i inst ∈ crossAssignments btc slots := by
  induction btc with
  | nil => cases hbc
  | cons hd rest ih =>
    rcases List.mem_cons.mp hbc with heq | hrest
    · subst heq
      simp only [crossAssignments, hs]
      exact List.mem_append_left _ (List.mem_map_of_mem _ hmem)
    · obtain ⟨b', c'⟩ := hd
      simp only [crossAssignments]
      exact List.mem_append_right _ (ih hrest)

lemma crossAssignments_sound (btc : List (String × String))
    (slots : List (String × List (Int × String))) (a : ExtractedAssignment)
    (ha : a ∈ crossAssignments btc slots) :
    ∃ b c s i inst, (b, c) ∈ btc ∧ slotsLookup slots c = some s ∧
      (i, inst) ∈ s ∧ a = mkAssignment b c i inst := by
  induction btc with
  | nil => cases ha
  | cons hd rest ih =>
    obtain ⟨b', c'⟩ := hd
    simp only [crossAssignments] at ha
    rcases List.mem_append.mp ha with hl | hr
    · cases hsl : slotsLookup slots c' with
      | none =>
        rw [hsl] at hl
        cases hl
      | some s =>
        rw [hsl] at hl
        obtain ⟨si, hsi, hmk⟩ := List.mem_map.mp hl
        refine ⟨b', c', s, si.1, si.2, List.mem_cons_self _ _, hsl, ?_, hmk.symm⟩
        simpa using hsi
    · obtain ⟨b, c, s, i, inst, h1, h2, h3, h4⟩ := ih hr
      exact ⟨b, c, s, i, inst, List.mem_cons_of_mem _ h1, h2, h3, h4⟩

/-- C3: every emitted assignment has kind `"base_slot"`, target the slot
index rendered as text, and priority the slot index; exactly the recorded
`(slot_index, instance_id)` pairs of the container mapped to each base
camp produce assignments (both directions); and the required set admitted
into the character walk is exactly the set of instance ids the assignments
reference. -/
theorem C3_base_assignments (guidStr : Bytes → String)
    (fstr : Bytes → Except String (Option String × Nat))
    (world_props : PropMap) :
    (∀ a ∈ parse_base_assignments guidStr fstr world_props,
       a.assignment_kind = some "base_slot" ∧
       ∃ i : Int, a.assignment_target = some (toString i)
         ∧ a.priority = some i) ∧
    (∀ b c, (b, c) ∈ baseToContainerOf guidStr fstr world_props →
       ∀ s, slotsLookup (containerSlotsOf guidStr fstr world_props) c
         = some s →
       ∀ i inst, (i, inst) ∈ s →
         mkAssignment b c i inst
           ∈ parse_base_assignments guidStr fstr world_props) ∧
    (∀ a ∈ parse_base_assignments guidStr fstr world_props,
       ∃ b c s i inst,
         (b, c) ∈ baseToContainerOf guidStr fstr world_props ∧
         slotsLookup (containerSlotsOf guidStr fstr world_props) c = some s ∧
         (i, inst) ∈ s ∧ a = mkAssignment b c i inst) ∧
    (∀ x, x ∈ requiredIdsOf (parse_base_assignments guidStr fstr world_props)
       ↔ ∃ a ∈ parse_base_assignments guidStr fstr world_props,
           a.pal_instance_id = x) := by
  refine ⟨?_, ?_, ?_, ?_⟩
  · intro a ha
    obtain ⟨b, c, s, i, inst, _, _, _, rfl⟩ :=
      crossAssignments_sound _ _ a ha
    exact ⟨rfl, i, rfl, rfl⟩
  · intro b c hbc s hs i inst hmem
    exact mem_crossAssignments_of _ b c i inst s _ hbc hs hmem
  · intro a ha
    exact crossAssignments_sound _ _ a ha
  · intro x
    unfold requiredIdsOf
    rw [List.mem_map]

/-- Guid-rendering oracle for the C3 witness: every 16-byte guid renders
as `"aa"` (normalized `"AA"`). -/
def c3GuidStr : Bytes → String := fun _ => "aa"

/-- FString oracle for the C3 witness: reads the base-camp name as `"n"`
consuming no bytes. -/
def c3Fstr : Bytes → Except String (Option String × Nat) :=
  fun _ => .ok (some "n", 0)

/-- A concrete `worldSaveData` with one base camp (213-byte blob), its
worker director (114-byte blob) and one container with one occupied slot
(33-byte blob). -/
def c3World : PropMap :=
  [("BaseCampSaveData", [.mapProps [(Property.otherProp,
      .structPropVal (.customStruct
        [("RawData", [.arrayBytes (List.replicate 213 0)]),
         ("WorkerDirector", [.structPropVal (.customStruct
           [("RawData", [.arrayBytes (List.replicate 114 0)])])])]))]]),
   ("CharacterContainerSaveData", [.mapProps [(
      .structPropVal (.customStruct
        [("ID", [.structPropVal (.guid "aa")])]),
      .structPropVal (.customStruct
        [("Slots", [.arrayStructs [.customStruct
          [("SlotIndex", [.intProp 0]),
           ("RawData", [.arrayBytes (List.replicate 33 0)])]]])]))]])]

set_option maxRecDepth 100000 in
/-- C3 witness: on the concrete world, the cross-product clause emits the
assignment `(AA, AA, "base_slot", "0", 0)`. -/
theorem C3_base_assignments_witness :
    mkAssignment "AA" "AA" 0 "AA"
      ∈ parse_base_assignments c3GuidStr c3Fstr c3World :=
  (C3_base_assignments c3GuidStr c3Fstr c3World).2.1 "AA" "AA" (by decide)
    [(0, "AA")] (by decide) 0 "AA" (by decide)

lemma selected_cond_false (required : List String) (k v : Property)
    (inst uid : String) (raw : Bytes)
    (hk : readEntryKey k v = some (inst, uid, raw))
    (hsel : entrySelected required k v = true) :
    (uid == zeroGuid32 && !(required.contains inst)) = false := by
  unfold entrySelected at hsel
  rw [hk] at hsel
  dsimp only at hsel
  cases hb : (uid == zeroGuid32 && !(required.contains inst)) with
  | false => rfl
  | true =>
    rw [hb] at hsel
    exact absurd hsel (by decide)

/-- C2 (amended): unreadable entries and dropped zero-uid entries yield no
row; a retained entry whose `RawData` property stream parses, leaves at
least 4 tail bytes, and contains a `SaveParameter` custom struct becomes a
Player row exactly when `IsPlayer` is `true` (with `guild_id` taken from
the parsed `group_id`), otherwise a Pal row; but a retained entry whose
tail is shorter than 4 bytes or which lacks a readable `SaveParameter`
yields no row at all — the code corrections to the claim. -/
theorem C2_amended_character_rows (sp : StreamParser) (gs : Bytes → String)
    (required : List String) (k v : Property) :
    (readEntryKey k v = none → processEntry sp gs required k v = .ok none) ∧
    (∀ inst uid raw, readEntryKey k v = some (inst, uid, raw) →
       uid = zeroGuid32 → required.contains inst = false →
       processEntry sp gs required k v = .ok none) ∧
    (∀ inst uid raw props pos spp,
       readEntryKey k v = some (inst, uid, raw) →
       entrySelected required k v = true →
       sp raw = .ok (props, pos) →
       4 ≤ (raw.drop pos).length →
       (get_first_prop props "SaveParameter").bind as_custom_struct
         = some spp →
       ∃ row, processEntry sp gs required k v = .ok (some row) ∧
         ((∃ p, row = PlannerRow.player p) ↔
           get_bool (get_first_prop spp "IsPlayer") = some true) ∧
         (∀ p, row = PlannerRow.player p → p.player_uid = uid ∧
           p.guild_id =
             (if 20 ≤ (raw.drop pos).length then
               some (normalizeGuidS (gs (((raw.drop pos).drop 4).take 16)))
             else none)) ∧
         (∀ p, row = PlannerRow.pal p → p.pal_instance_id = inst)) ∧
    (∀ inst uid raw props pos,
       readEntryKey k v = some (inst, uid, raw) →
       entrySelected required k v = true →
       sp raw = .ok (props, pos) →
       ((raw.drop pos).length < 4 ∨
        (get_first_prop props "SaveParameter").bind as_custom_struct
          = none) →
       processEntry sp gs required k v = .ok none) := by
  refine ⟨?_, ?_, ?_, ?_⟩
  · intro hk
    unfold processEntry
    rw [hk]
  · intro inst uid raw hk huid hcont
    have hcond : (uid == zeroGuid32 && !(required.contains inst)) = true := by
      rw [huid, hcont]
      simp
    unfold processEntry
    rw [hk]
    dsimp only
    rw [hcond, if_pos rfl]
  · intro inst uid raw props pos spp hk hsel hsp h4 hspp
    have hfalse := selected_cond_false required k v inst uid raw hk hsel
    unfold processEntry
    rw [hk]
    dsimp only
    rw [hfalse, if_neg (by decide)]
    rw [hsp]
    dsimp only
    rw [if_neg (by omega)]
    rw [hspp]
    dsimp only
    cases hip : get_bool (get_first_prop spp "IsPlayer") with
    | some b =>
      cases b with
      | true =>
        dsimp only [Option.getD]
        rw [if_pos rfl]
        refine ⟨_, rfl, ?_, ?_, ?_⟩
        · exact iff_of_true ⟨_, rfl⟩ rfl
        · intro p hp
          injection hp with hp
          subst hp
          exact ⟨rfl, rfl⟩
        · intro p hp
          cases hp
      | false =>
        dsimp only [Option.getD]
        rw [if_neg (by decide)]
        refine ⟨_, rfl, ?_, ?_, ?_⟩
        · refine iff_of_false ?_ ?_
          · rintro ⟨p, hp⟩
            cases hp
          · intro h
            injection h with h
            cases h
        · intro p hp
          cases hp
        · intro p hp
          injection hp with hp
          subst hp
          rfl
    | none =>
      dsimp only [Option.getD]
      rw [if_neg (by decide)]
      refine ⟨_, rfl, ?_, ?_, ?_⟩
      · refine iff_of_false ?_ ?_
        · rintro ⟨p, hp⟩
          cases hp
        · intro h
          cases h
      · intro p hp
        cases hp
      · intro p hp
        injection hp with hp
        subst hp
        rfl
  · intro inst uid raw props pos hk hsel hsp hor
    have hfalse := selected_cond_false required k v inst uid raw hk hsel
    unfold processEntry
    rw [hk]
    dsimp only
    rw [hfalse, if_neg (by decide)]
    rw [hsp]
    dsimp only
    rcases hor with hl | hnone
    · rw [if_pos hl]
    · by_cases hl : (raw.drop pos).length < 4
      · rw [if_pos hl]
      · rw [if_neg hl, hnone]

/-- The 29-byte RawData blob of the concrete character entries: a real
stream holding only the `None` terminator (9 bytes) plus a 20-byte tail. -/
def c2Raw : Bytes := List.replicate 29 0

/-- Concrete character-map entry key: readable guids, non-zero
`PlayerUId`. -/
def c2Key : Property :=
  .structPropVal (.customStruct
    [("InstanceId", [.structPropVal (.guid "1")]),
     ("PlayerUId", [.structPropVal (.guid "2")])])

/-- Concrete character-map entry value carrying the blob. -/
def c2Value : Property :=
  .structPropVal (.customStruct [("RawData", [.arrayBytes c2Raw])])

/-- Stream oracle for the C2 counterexample: the blob parses to an empty
property mapping (no `SaveParameter`) consuming 9 bytes — the behavior of
`parse_property_stream` on a blob that is just an encoded `None`. -/
def c2Stream : StreamParser := fun _ => .ok ([], 9)

/-- C2 counterexample: a retained entry (readable ids, non-zero
`PlayerUId`) whose parsed blob has no `SaveParameter` yields no row at
all, although the claim says every retained entry becomes a Player or Pal
row. -/
theorem C2_counterexample :
    entrySelected [] c2Key c2Value = true ∧
    processEntry c2Stream (fun _ => "0") [] c2Key c2Value = .ok none :=
  ⟨rfl, rfl⟩

/-- The inner `SaveParameter` mapping of the C2 witness: a pal
(`IsPlayer` false). -/
def c2WSpp : PropMap := [("IsPlayer", [.boolProp false])]

/-- Parsed blob mapping of the C2 witness. -/
def c2WProps : PropMap :=
  [("SaveParameter", [.structPropVal (.customStruct c2WSpp)])]

/-- Stream oracle for the C2 witness: parse yields `c2WProps`, consuming
9 bytes. -/
def c2WStream : StreamParser := fun _ => .ok (c2WProps, 9)

/-- C2 witness: the amended row rule at a concrete retained entry whose
`SaveParameter` has `IsPlayer = false`, yielding a Pal row. -/
theorem C2_amended_character_rows_witness :
    ∃ row, processEntry c2WStream (fun _ => "0") [] c2Key c2Value
        = .ok (some row) ∧
      ((∃ p, row = PlannerRow.player p) ↔
        get_bool (get_first_prop c2WSpp "IsPlayer") = some true) ∧
      (∀ p, row = PlannerRow.player p → p.player_uid = "2" ∧
        p.guild_id =
          (if 20 ≤ (c2Raw.drop 9).length then
            some (normalizeGuidS ((fun _ => "0")
              (((c2Raw.drop 9).drop 4).take 16)))
          else none)) ∧
      (∀ p, row = PlannerRow.pal p → p.pal_instance_id = "1") :=
  (C2_amended_character_rows c2WStream (fun _ => "0") [] c2Key
    c2Value).2.2.1 "1" "2" c2Raw c2WProps 9 c2WSpp rfl rfl rfl (by decide)
    rfl

/-- C4 (amended): for a retained entry whose blob parses with a readable
`SaveParameter`, `group_id` is read (4 skipped bytes then a 16-byte guid)
only when at least 20 tail bytes remain; with 4 to 19 tail bytes the short
tail is tolerated and the row is still emitted with `group_id` absent; but
with fewer than 4 tail bytes the `read_exact` of the skipped bytes fails
and the entry is skipped without any row — the code correction to the
claim's "short tails are tolerated". -/
theorem C4_amended_group_id (sp : StreamParser) (gs : Bytes → String)
    (required : List String) (k v : Property) :
    (∀ inst uid raw props pos spp,
       readEntryKey k v = some (inst, uid, raw) →
       entrySelected required k v = true →
       sp raw = .ok (props, pos) →
       (get_first_prop props "SaveParameter").bind as_custom_struct
         = some spp →
       get_bool (get_first_prop spp "IsPlayer") = some true →
       (20 ≤ (raw.drop pos).length →
          ∃ p, processEntry sp gs required k v = .ok (some (.player p)) ∧
            p.guild_id = some (normalizeGuidS
              (gs (((raw.drop pos).drop 4).take 16)))) ∧
       (4 ≤ (raw.drop pos).length → (raw.drop pos).length < 20 →
          ∃ p, processEntry sp gs required k v = .ok (some (.player p)) ∧
            p.guild_id = none)) ∧
    (∀ inst uid raw props pos,
       readEntryKey k v = some (inst, uid, raw) →
       entrySelected required k v = true →
       sp raw = .ok (props, pos) →
       (raw.drop pos).length < 4 →
       processEntry sp gs required k v = .ok none) := by
  constructor
  · intro inst uid raw props pos spp hk hsel hsp hspp hip
    have hfalse := selected_cond_false required k v inst uid raw hk hsel
    constructor
    · intro h20
      unfold processEntry
      rw [hk]
      dsimp only
      rw [hfalse, if_neg (by decide), hsp]
      dsimp only
      rw [if_neg (by omega)]
      rw [hspp]
      dsimp only
      rw [hip]
      dsimp only [Option.getD]
      rw [if_pos rfl, if_pos h20]
      exact ⟨_, rfl, rfl⟩
    · intro h4 h20
      unfold processEntry
      rw [hk]
      dsimp only
      rw [hfalse, if_neg (by decide), hsp]
      dsimp only
      rw [if_neg (by omega)]
      rw [hspp]
      dsimp only
      rw [hip]
      dsimp only [Option.getD]
      rw [if_pos rfl, if_neg (by omega)]
      exact ⟨_, rfl, rfl⟩
  · intro inst uid raw props pos hk hsel hsp hl
    have hfalse := selected_cond_false required k v inst uid raw hk hsel
    unfold processEntry
    rw [hk]
    dsimp only
    rw [hfalse, if_neg (by decide), hsp]
    dsimp only
    rw [if_pos hl]

/-- Stream oracle for the C4 counterexample: the blob parses consuming
every byte, leaving an empty tail although a `SaveParameter` was found. -/
def c4Stream : StreamParser := fun b => .ok (c2WProps, b.length)

/-- C4 counterexample: a retained entry whose stream consumed the whole
blob (tail shorter than 4 bytes) is skipped without a row, although the
claim says short tails are tolerated and the row still emitted with
`group_id` absent. -/
theorem C4_counterexample :
    entrySelected [] c2Key c2Value = true ∧
    processEntry c4Stream (fun _ => "0") [] c2Key c2Value = .ok none :=
  ⟨rfl, rfl⟩

/-- The inner `SaveParameter` mapping of the C4 witness: a player. -/
def c4WSpp : PropMap := [("IsPlayer", [.boolProp true])]

/-- Parsed blob mapping of the C4 witness. -/
def c4WProps : PropMap :=
  [("SaveParameter", [.structPropVal (.customStruct c4WSpp)])]

/-- Stream oracle for the C4 witness: parse yields `c4WProps`, consuming
9 of the 29 blob bytes, so 20 tail bytes remain. -/
def c4WStream : StreamParser := fun _ => .ok (c4WProps, 9)

/-- C4 witness: with a 20-byte tail the player row carries the parsed
`group_id`. -/
theorem C4_amended_group_id_witness :
    ∃ p, processEntry c4WStream (fun _ => "0") [] c2Key c2Value
        = .ok (some (.player p)) ∧
      p.guild_id = some (normalizeGuidS "0") :=
  ((C4_amended_group_id c4WStream (fun _ => "0") [] c2Key c2Value).1
    "1" "2" c2Raw c4WProps 9 c4WSpp rfl rfl rfl rfl rfl).1 (by decide)

lemma find?_none_of_no_key (hints : HintMap) (path : String)
    (h : hintContains hints path = false) :
    hints.find? (fun kv => kv.1 == path) = none := by
  induction hints with
  | nil => rfl
  | cons kv rest ih =>
    unfold hintContains at h ih
    rw [List.any_cons] at h
    have h1 : (kv.1 == path) = false := by
      cases hx : (kv.1 == path) with
      | false => rfl
      | true =>
        rw [hx, Bool.true_or] at h
        cases h
    rw [h1, Bool.false_or] at h
    rw [List.find?_cons_of_neg _ (by rw [h1]; decide)]
    exact ih h

lemma hintInsert_not_contains (hints : HintMap) (path ty : String)
    (h : hintContains hints path = false) :
    hintInsert hints path ty = hints ++ [(path, ty)] := by
  unfold hintInsert
  rw [h]
  rfl

lemma hintInsert_length (hints : HintMap) (path ty : String)
    (h : hintContains hints path = false) :
    (hintInsert hints path ty).length = hints.length + 1 := by
  rw [hintInsert_not_contains hints path ty h, List.length_append]
  rfl

lemma hintLookup_insert (hints : HintMap) (path ty : String)
    (h : hintContains hints path = false) :
    hintLookup (hintInsert hints path ty) path = some ty := by
  rw [hintInsert_not_contains hints path ty h]
  unfold hintLookup
  rw [List.find?_append, find?_none_of_no_key hints path h]
  rw [List.find?_cons_of_pos _ (by dsimp only; exact beq_self_eq_true path)]
  rfl

/-- C5: one resolution pass that receives `MissingHint(kind, path)` for a
fresh path and has pass budget left continues with exactly one new hint,
whose type is the mirrored (seed) table's value for the simplified path
when present, else the reported kind; a `MissingHint` for a path already
present surfaces as that error; and once 64 passes are spent, the next
`MissingHint` fails with the bounded-resolution error. -/
theorem C5_hint_resolution (gvasParse : HintMap → GvasParseOutcome)
    (mirrored : HintMap) :
    (∀ fuel pass hints kind path,
       gvasParse hints = .missingHint kind path → pass < 64 →
       hintContains hints path = false →
       (autoHintLoop gvasParse mirrored mirrored.length (fuel + 1) pass hints
          = autoHintLoop gvasParse mirrored mirrored.length fuel (pass + 1)
              (hintInsert hints path
                ((hintLookup mirrored (simplify_hint_path path)).getD kind)))
       ∧ (hintInsert hints path
            ((hintLookup mirrored (simplify_hint_path path)).getD
              kind)).length = hints.length + 1
       ∧ hintLookup (hintInsert hints path
            ((hintLookup mirrored (simplify_hint_path path)).getD kind)) path
          = some ((hintLookup mirrored (simplify_hint_path path)).getD
              kind)) ∧
    (∀ fuel pass hints kind path,
       gvasParse hints = .missingHint kind path → pass < 64 →
       hintContains hints path = true →
       autoHintLoop gvasParse mirrored mirrored.length (fuel + 1) pass hints
         = .error (.missingHint kind path)) ∧
    (∀ fuel hints kind path,
       gvasParse hints = .missingHint kind path →
       autoHintLoop gvasParse mirrored mirrored.length (fuel + 1) 64 hints
         = .error .bounded) ∧
    parse_with_auto_hints gvasParse mirrored
      = autoHintLoop gvasParse mirrored mirrored.length 65 0 mirrored := by
  refine ⟨?_, ?_, ?_, rfl⟩
  · intro fuel pass hints kind path hg hlt hc
    refine ⟨?_, hintInsert_length hints path _ hc,
      hintLookup_insert hints path _ hc⟩
    simp only [autoHintLoop]
    rw [hg]
    dsimp only
    rw [if_neg (by omega), hc, if_neg (by decide)]
  · intro fuel pass hints kind path hg hlt hc
    simp only [autoHintLoop]
    rw [hg]
    dsimp only
    rw [if_neg (by omega), hc, if_pos rfl]
  · intro fuel hints kind path hg
    simp only [autoHintLoop]
    rw [hg]
    dsimp only
    rw [if_pos (by omega)]

/-- Adversarial parser for the C5 witness: always missing the same fresh
hint. -/
def c5Parse : HintMap → GvasParseOutcome :=
  fun _ => .missingHint "StructProperty" "a.StructProperty.b"

/-- C5 witness: the single-pass clause applied concretely: starting from
an empty map, the pass inserts exactly one hint. -/
theorem C5_hint_resolution_witness :
    (hintInsert ([] : HintMap) "a.StructProperty.b"
      ((hintLookup [] (simplify_hint_path "a.StructProperty.b")).getD
        "StructProperty")).length = 0 + 1 :=
  ((C5_hint_resolution c5Parse []).1 0 0 [] "StructProperty"
    "a.StructProperty.b" rfl (by omega) rfl).2.1

lemma walkEntries_error_at_entry (sp : StreamParser) (gs : Bytes → String)
    (req : List String) (pre : List (Property × Property))
    (k v : Property) (post : List (Property × Property)) (err : StreamErr)
    (hpre : ∀ e ∈ pre, ∃ r, processEntry sp gs req e.1 e.2 = .ok r)
    (hkv : processEntry sp gs req k v = .error err) :
    walkEntries sp gs req (pre ++ (k, v) :: post) = .error err := by
  induction pre with
  | nil =>
    rw [List.nil_append]
    unfold walkEntries
    rw [hkv]
  | cons e rest ih =>
    obtain ⟨e1, e2⟩ := e
    obtain ⟨r, hr⟩ := hpre (e1, e2) (List.mem_cons_self _ _)
    dsimp only at hr
    rw [List.cons_append]
    unfold walkEntries
    rw [hr]
    cases r with
    | none => exact ih (fun x hx => hpre x (List.mem_cons_of_mem _ hx))
    | some row =>
      rw [ih (fun x hx => hpre x (List.mem_cons_of_mem _ hx))]

/-- C10: a `MissingHint` reported while parsing the embedded property
stream of a selected character entry's `RawData` blob aborts the whole
extraction with an error: the hint-resolution loop wraps only the
top-level parse `gvasParse` (see `extract_pipeline`), so the blob's
missing hint is never learned or retried — the pipeline result is the
stringified character-map failure. -/
theorem C10_blob_missing_hint_aborts
    (gvasParse : HintMap → GvasParseOutcome) (mirrored : HintMap)
    (sp : StreamParser) (gs : Bytes → String)
    (fstr : Bytes → Except String (Option String × Nat)) :
    ∀ outcome world_props pre k v post kind path,
      parse_with_auto_hints gvasParse mirrored = .ok outcome →
      get_world_save_data_props outcome.gvas = some world_props →
      get_first_prop world_props "CharacterSaveParameterMap"
        = some (.mapProps (pre ++ (k, v) :: post)) →
      (∀ e ∈ pre, ∃ r, processEntry sp gs
         (requiredIdsOf (parse_base_assignments gs fstr world_props))
         e.1 e.2 = .ok r) →
      processEntry sp gs
        (requiredIdsOf (parse_base_assignments gs fstr world_props)) k v
        = .error (.missingHint kind path) →
      extract_pipeline gvasParse mirrored sp gs fstr
        = .error (.characterMapFailed (.stream
            (.missingHint kind path))) := by
  intro outcome world_props pre k v post kind path hparse hworld hmap hpre
    hkv
  unfold extract_pipeline
  rw [hparse]
  dsimp only
  rw [hworld]
  dsimp only
  unfold extractFromWorldProps
  dsimp only
  unfold parse_character_map
  rw [hmap]
  dsimp only
  rw [walkEntries_error_at_entry sp gs _ pre k v post _ hpre hkv]

/-- The C10 witness world: a single character entry. -/
def c10World : PropMap :=
  [("CharacterSaveParameterMap", [.mapProps [(c2Key, c2Value)]])]

/-- The C10 witness root mapping. -/
def c10Root : RootMap :=
  [("worldSaveData", .structPropVal (.customStruct c10World))]

/-- Top-level parser for the C10 witness: succeeds immediately. -/
def c10Parse : HintMap → GvasParseOutcome := fun _ => .parsed c10Root

/-- Blob parser for the C10 witness: reports a missing hint inside the
blob. -/
def c10Stream : StreamParser :=
  fun _ => .error (.missingHint "StructProperty" "SaveParameter.P")

/-- C10 witness: the concrete pipeline aborts with the blob's missing
hint. -/
theorem C10_blob_missing_hint_aborts_witness :
    extract_pipeline c10Parse [] c10Stream (fun _ => "0")
        (fun _ => .error "")
      = .error (.characterMapFailed (.stream
          (.missingHint "StructProperty" "SaveParameter.P"))) :=
  C10_blob_missing_hint_aborts c10Parse [] c10Stream (fun _ => "0")
    (fun _ => .error "") ⟨c10Root, [], 0, 0, 0⟩ c10World [] c2Key c2Value
    [] "StructProperty" "SaveParameter.P" rfl rfl rfl
    (fun e he => absurd he (List.not_mem_nil e)) rfl
